import Mathlib

/-!
# GPU resource layer of gpu-fluid: textures and shader uniforms

A shallow embedding of `src/GPUFluid/src/render/Texture.cpp` and of the integer
uniform setters of `src/GPUFluid/src/render/Shader.cpp`.

* C++ `int` fields are `Int`; `GLenum`/`GLuint` values are `Nat`;
  `unsigned long long` arithmetic is `Nat` arithmetic reduced modulo `2^64`.
* The process-wide statics of `Texture` (lines 82-86) and the texture objects
  they point to live in one `World`; a texture is named by a `TexId`, and the
  `Texture *` slots of `_units` are `Option TexId` (`none` is the null pointer).
* C arrays are total maps from the index; only the indices `0 .. size-1` exist
  in the source and every statement below is restricted to those.
* Calls into the graphics device are recorded, in order, as `GlCall` values.
-/

namespace GPUFluid

/-! ## Enumerants of the graphics API (values of the OpenGL registry) -/

def GL_R8 : Nat := 0x8229
def GL_RG8 : Nat := 0x822B
def GL_RGB8 : Nat := 0x8051
def GL_RGBA8 : Nat := 0x8058
def GL_R16F : Nat := 0x822D
def GL_RG16F : Nat := 0x822F
def GL_RGB16F : Nat := 0x881B
def GL_RGBA16F : Nat := 0x881A
def GL_R32F : Nat := 0x822E
def GL_RG32F : Nat := 0x8230
def GL_RGB32F : Nat := 0x8815
def GL_RGBA32F : Nat := 0x8814
def GL_R8I : Nat := 0x8231
def GL_RG8I : Nat := 0x8237
def GL_RGB8I : Nat := 0x8D8F
def GL_RGBA8I : Nat := 0x8D8E
def GL_R16I : Nat := 0x8233
def GL_RG16I : Nat := 0x8239
def GL_RGB16I : Nat := 0x8D89
def GL_RGBA16I : Nat := 0x8D88
def GL_R32I : Nat := 0x8235
def GL_RG32I : Nat := 0x823B
def GL_RGB32I : Nat := 0x8D83
def GL_RGBA32I : Nat := 0x8D82
def GL_R8UI : Nat := 0x8232
def GL_RG8UI : Nat := 0x8238
def GL_RGB8UI : Nat := 0x8D7D
def GL_RGBA8UI : Nat := 0x8D7C
def GL_R16UI : Nat := 0x8234
def GL_RG16UI : Nat := 0x823A
def GL_RGB16UI : Nat := 0x8D77
def GL_RGBA16UI : Nat := 0x8D76
def GL_R32UI : Nat := 0x8236
def GL_RG32UI : Nat := 0x823C
def GL_RGB32UI : Nat := 0x8D71
def GL_RGBA32UI : Nat := 0x8D70
def GL_DEPTH_COMPONENT16 : Nat := 0x81A5
def GL_DEPTH_COMPONENT24 : Nat := 0x81A6
def GL_DEPTH_COMPONENT32 : Nat := 0x81A7
def GL_DEPTH24_STENCIL8 : Nat := 0x88F0
def GL_DEPTH32F_STENCIL8 : Nat := 0x8CAD

def GL_BYTE : Nat := 0x1400
def GL_UNSIGNED_BYTE : Nat := 0x1401
def GL_SHORT : Nat := 0x1402
def GL_UNSIGNED_SHORT : Nat := 0x1403
def GL_INT : Nat := 0x1404
def GL_UNSIGNED_INT : Nat := 0x1405
def GL_FLOAT : Nat := 0x1406

def GL_RED : Nat := 0x1903
def GL_RG : Nat := 0x8227
def GL_RGB : Nat := 0x1907
def GL_RGBA : Nat := 0x1908
def GL_RED_INTEGER : Nat := 0x8D94
def GL_RG_INTEGER : Nat := 0x8228
def GL_RGB_INTEGER : Nat := 0x8D98
def GL_RGBA_INTEGER : Nat := 0x8D99
def GL_DEPTH_COMPONENT : Nat := 0x1902
def GL_DEPTH_STENCIL : Nat := 0x84F9

def GL_TEXTURE_BUFFER : Nat := 0x8C2A
def GL_TEXTURE_1D : Nat := 0x0DE0
def GL_TEXTURE_CUBE_MAP : Nat := 0x8513
def GL_TEXTURE_2D : Nat := 0x0DE1
def GL_TEXTURE_3D : Nat := 0x806F

def GL_TEXTURE0 : Int := 0x84C0
def GL_CLAMP_TO_EDGE : Int := 0x812F
def GL_MIRRORED_REPEAT : Int := 0x8370
def GL_NEAREST : Int := 0x2600
def GL_LINEAR : Int := 0x2601
def GL_TEXTURE_MAG_FILTER : Nat := 0x2800
def GL_TEXTURE_MIN_FILTER : Nat := 0x2801
def GL_TEXTURE_WRAP_S : Nat := 0x2802
def GL_TEXTURE_WRAP_T : Nat := 0x2803
def GL_TEXTURE_WRAP_R : Nat := 0x8072
def GL_TEXTURE_MAX_LEVEL : Nat := 0x813D

/-! ## Lookup tables of Texture.cpp (lines 31-80) -/

/-- Table `GlFormatTable[][4][4]`, indexed by texel kind, bytes per channel minus one,
channels minus one. -/
def GlFormatTable : List (List (List Nat)) :=
  [[[  GL_R8,   GL_RG8,   GL_RGB8,   GL_RGBA8],
    [GL_R16F, GL_RG16F, GL_RGB16F, GL_RGBA16F],
    [      0,        0,         0,          0],
    [GL_R32F, GL_RG32F, GL_RGB32F, GL_RGBA32F]],

   [[ GL_R8I,  GL_RG8I,  GL_RGB8I,  GL_RGBA8I],
    [GL_R16I, GL_RG16I, GL_RGB16I, GL_RGBA16I],
    [      0,        0,         0,          0],
    [GL_R32I, GL_RG32I, GL_RGB32I, GL_RGBA32I]],

   [[ GL_R8UI,  GL_RG8UI,  GL_RGB8UI,  GL_RGBA8UI],
    [GL_R16UI, GL_RG16UI, GL_RGB16UI, GL_RGBA16UI],
    [       0,         0,          0,           0],
    [GL_R32UI, GL_RG32UI, GL_RGB32UI, GL_RGBA32UI]],

   [[                   0, 0, 0, 0],
    [GL_DEPTH_COMPONENT16, 0, 0, 0],
    [GL_DEPTH_COMPONENT24, 0, 0, 0],
    [GL_DEPTH_COMPONENT32, 0, 0, 0]],

   [[                   0, 0, 0, 0],
    [                   0, 0, 0, 0],
    [ GL_DEPTH24_STENCIL8, 0, 0, 0],
    [GL_DEPTH32F_STENCIL8, 0, 0, 0]]]

/-- Table `GlTypeTable[][4]`, indexed by texel kind and bytes per channel minus one. -/
def GlTypeTable : List (List Nat) :=
  [[GL_UNSIGNED_BYTE,          GL_FLOAT,        0,        GL_FLOAT],
   [         GL_BYTE,          GL_SHORT,        0,          GL_INT],
   [GL_UNSIGNED_BYTE, GL_UNSIGNED_SHORT,        0, GL_UNSIGNED_INT],
   [               0,          GL_FLOAT, GL_FLOAT,        GL_FLOAT],
   [               0,                 0, GL_FLOAT,        GL_FLOAT]]

/-- Table `GlTexTable[]`, indexed by texture kind. -/
def GlTexTable : List Nat :=
  [GL_TEXTURE_BUFFER, GL_TEXTURE_1D, GL_TEXTURE_CUBE_MAP, GL_TEXTURE_2D, GL_TEXTURE_3D]

/-- Table `GlChanTable[][4]`, indexed by texel kind and channels minus one. -/
def GlChanTable : List (List Nat) :=
  [[GL_RED, GL_RG, GL_RGB, GL_RGBA],
   [GL_RED_INTEGER, GL_RG_INTEGER, GL_RGB_INTEGER, GL_RGBA_INTEGER],
   [GL_RED_INTEGER, GL_RG_INTEGER, GL_RGB_INTEGER, GL_RGBA_INTEGER],
   [GL_DEPTH_COMPONENT, 0, 0, 0],
   [GL_DEPTH_STENCIL, 0, 0, 0]]

/-- Read of a C array at an `int` index: `none` when the index lies outside the array. -/
def cIndex {α : Type} (xs : List α) (i : Int) : Option α :=
  if 0 ≤ i then xs[i.toNat]? else none

/-! ## Texture objects -/

/-- Enumeration `TextureType`. The header declaring it is not among the sources; the order
is the one `GlTexTable` is indexed by and the constructor's comparisons rely on. -/
inductive TextureType
  | TEXTURE_BUFFER
  | TEXTURE_1D
  | TEXTURE_CUBE
  | TEXTURE_2D
  | TEXTURE_3D
  deriving DecidableEq

/-- Numeric value of a texture kind. -/
def TextureType.toInt : TextureType → Int
  | .TEXTURE_BUFFER => 0
  | .TEXTURE_1D => 1
  | .TEXTURE_CUBE => 2
  | .TEXTURE_2D => 3
  | .TEXTURE_3D => 4

/-- Enumeration `TexelType`. The header declaring it is not among the sources; the order
is the one of the rows of `GlFormatTable`, `GlTypeTable` and `GlChanTable`. -/
inductive TexelType
  | TEXEL_FLOAT
  | TEXEL_INT
  | TEXEL_UINT
  | TEXEL_DEPTH
  | TEXEL_DEPTH_STENCIL
  deriving DecidableEq

/-- Numeric value of a texel kind. -/
def TexelType.toInt : TexelType → Int
  | .TEXEL_FLOAT => 0
  | .TEXEL_INT => 1
  | .TEXEL_UINT => 2
  | .TEXEL_DEPTH => 3
  | .TEXEL_DEPTH_STENCIL => 4

/-- Data members of a `Texture` object, named as in the source without the leading
underscore. -/
structure Texture where
  type : TextureType
  texelType : TexelType
  channels : Int
  chanBytes : Int
  glName : Nat
  glType : Nat
  glFormat : Nat
  glChanType : Nat
  elementType : Nat
  elementSize : Int
  levels : Int
  width : Int
  height : Int
  depth : Int
  boundUnit : Int
  deriving DecidableEq

/-- Constructor `Texture::Texture(type, width, height, depth, levels)` (lines 88-102). -/
def Texture.construct (type : TextureType) (width height depth levels : Int) : Texture :=
  let t0 : Texture :=
    { type := type, texelType := .TEXEL_FLOAT, channels := 0, chanBytes := 0,
      glName := 0, glFormat := 0, glChanType := 0, elementType := 0,
      elementSize := 0, levels := levels, boundUnit := -1,
      width := 1, height := 1, depth := 1,
      glType := (cIndex GlTexTable type.toInt).getD 0 }
  let t1 := if type.toInt > TextureType.TEXTURE_BUFFER.toInt then { t0 with width := width } else t0
  let t2 := if type.toInt > TextureType.TEXTURE_1D.toInt then { t1 with height := height } else t1
  let t3 := if type.toInt > TextureType.TEXTURE_2D.toInt then { t2 with depth := depth } else t2
  t3

/-- The two assertions of `Texture::setFormat`. -/
inductive AssertMsg
  | channelCount
  | invalidFormatCombination
  deriving DecidableEq

/-- Result of an operation that contains `ASSERT`s (debug build, where `ASSERT` expands to
`debugAssert`).

Modelled from the spec: the body of `debugAssert` is not among the sources; by the spec's
section 7 a failed check "halts the offending operation's effect", so a failed assertion
ends the operation at that point. `assertFailed` carries the object as it is at that
moment. `undefinedRead` is a table read outside the table's bounds. -/
inductive Outcome (α : Type)
  | ok (t : α)
  | assertFailed (msg : AssertMsg) (t : α)
  | undefinedRead
  deriving DecidableEq

/-- Whether the operation failed an assertion. -/
def Outcome.failed {α : Type} : Outcome α → Bool
  | .assertFailed _ _ => true
  | _ => false

/-- Method `Texture::setFormat(texel, channels, chan_bytes)` (lines 136-150). -/
def Texture.setFormat (t : Texture) (texel : TexelType) (channels chan_bytes : Int) :
    Outcome Texture :=
  let t1 : Texture := { t with texelType := texel, channels := channels, chanBytes := chan_bytes }
  if ¬ (channels = 1 ∨ channels = 2 ∨ channels = 4) then
    .assertFailed .channelCount t1
  else
    match (cIndex GlFormatTable texel.toInt).bind
            (fun plane => (cIndex plane (chan_bytes - 1)).bind (fun row => cIndex row (channels - 1))),
          (cIndex GlChanTable texel.toInt).bind (fun row => cIndex row (channels - 1)),
          (cIndex GlTypeTable texel.toInt).bind (fun row => cIndex row (chan_bytes - 1)) with
    | some glFormat, some glChanType, some elementType =>
      let t2 : Texture :=
        { t1 with glFormat := glFormat, glChanType := glChanType, elementType := elementType,
                  elementSize := chan_bytes * channels }
      if ¬ (t2.glFormat ≠ 0 ∧ t2.elementType ≠ 0) then
        .assertFailed .invalidFormatCombination t2
      else
        .ok t2
    | _, _, _ => .undefinedRead

/-- Conversion of an `int` to `unsigned long long`. -/
def toULL (x : Int) : Nat := (x % 2 ^ 64).toNat

/-- Method `Texture::size()` (lines 283-296); every product is an `unsigned long long`
product, reduced modulo `2^64`. -/
def Texture.size (t : Texture) : Nat :=
  match t.type with
  | .TEXTURE_BUFFER => (toULL t.width * toULL t.elementSize) % 2 ^ 64
  | .TEXTURE_1D => (toULL t.width * toULL t.elementSize) % 2 ^ 64
  | .TEXTURE_CUBE =>
    ((((toULL t.width * toULL t.height) % 2 ^ 64) * toULL t.elementSize) % 2 ^ 64 * 6) % 2 ^ 64
  | .TEXTURE_2D =>
    (((toULL t.width * toULL t.height) % 2 ^ 64) * toULL t.elementSize) % 2 ^ 64
  | .TEXTURE_3D =>
    ((((toULL t.width * toULL t.height) % 2 ^ 64) * toULL t.depth) % 2 ^ 64
      * toULL t.elementSize) % 2 ^ 64

/-! ## Process-wide texture state and the device -/

/-- Calls into the graphics device, with the arguments the source passes. -/
inductive GlCall
  | glGenTextures (n : Int)
  | glDeleteTextures (n : Int) (name : Nat)
  | glActiveTexture (texture : Int)
  | glBindTexture (target name : Nat)
  | glTexBuffer (target internalformat buffer : Nat)
  | glTexStorage1D (target : Nat) (levels : Int) (internalformat : Nat) (width : Int)
  | glTexStorage2D (target : Nat) (levels : Int) (internalformat : Nat) (width height : Int)
  | glTexStorage3D (target : Nat) (levels : Int) (internalformat : Nat)
      (width height depth : Int)
  | glTexParameteri (target pname : Nat) (param : Int)
  | glUniform1i (location v0 : Int)
  | glUniform2i (location v0 v1 : Int)
  | glUniform3i (location v0 v1 v2 : Int)
  | glUniform4i (location v0 v1 v2 v3 : Int)
  deriving DecidableEq

/-- Name of a texture object (its address in the source). -/
abbrev TexId := Nat

/-- The statics of `Texture` (lines 82-86), the texture objects, and the device calls made
so far. `unitTicket` and `units` are the arrays `_unitTicket[MaxTextureUnits]` and
`_units[MaxTextureUnits]`. -/
structure World where
  memoryUsage : Nat
  selectedUnit : Int
  nextTicket : Int
  unitTicket : Int → Int
  units : Int → Option TexId
  tex : TexId → Texture
  calls : List GlCall

/-- State at program start: the static initialisers of lines 82-86, over the given texture
objects. -/
def World.initial (tex : TexId → Texture) : World :=
  { memoryUsage := 0, selectedUnit := 0, nextTicket := 1,
    unitTicket := fun _ => 0, units := fun _ => none, tex := tex, calls := [] }

/-- Issue one device call. -/
def World.emit (w : World) (c : GlCall) : World :=
  { w with calls := w.calls ++ [c] }

/-- The texture object with its `_boundUnit` member set to `u`. -/
def Texture.withBoundUnit (t : Texture) (u : Int) : Texture :=
  { t with boundUnit := u }

/-- Assignment to the `_boundUnit` member of texture `t`. -/
def World.setBoundUnit (w : World) (t : TexId) (u : Int) : World :=
  { w with tex := Function.update w.tex t ((w.tex t).withBoundUnit u) }

/-- Result of `int` arithmetic, wrapped to 32 bits two's complement. -/
def wrapInt32 (x : Int) : Int := (x + 2 ^ 31) % 2 ^ 32 - 2 ^ 31

/-- Static method `Texture::selectUnit(unit)` (lines 111-116). -/
def Texture.selectUnit (w : World) (unit : Int) : World :=
  if unit ≠ w.selectedUnit then
    { w.emit (.glActiveTexture (GL_TEXTURE0 + unit)) with selectedUnit := unit }
  else
    w

/-- Static method `Texture::markAsUsed(unit)` (lines 118-120). -/
def Texture.markAsUsed (w : World) (unit : Int) : World :=
  { w with unitTicket := Function.update w.unitTicket unit w.nextTicket,
           nextTicket := wrapInt32 (w.nextTicket + 1) }

/-- One iteration of the loop of `selectVictimUnit`, on `(leastTicket, leastUnit)`. -/
def victimStep (unitTicket : Int → Int) (acc : Int × Int) (i : Nat) : Int × Int :=
  if unitTicket i < acc.1 then (unitTicket i, (i : Int)) else acc

/-- Static method `Texture::selectVictimUnit()` (lines 122-134): the loop runs over
`i = 1 .. MaxTextureUnits - 1`. `MaxTextureUnits` is declared in a header that is not
among the sources and is a parameter here. -/
def Texture.selectVictimUnit (MaxTextureUnits : Nat) (w : World) : Int :=
  ((List.range' 1 (MaxTextureUnits - 1)).foldl (victimStep w.unitTicket) (w.unitTicket 0, 0)).2

/-- Method `Texture::bind(unit)` (lines 259-272), called on texture `this`. -/
def Texture.bind (w : World) (this : TexId) (unit : Int) : World :=
  let w1 := match w.units unit with
    | some occupant => w.setBoundUnit occupant (-1)
    | none => w
  let w2 := Texture.markAsUsed w1 unit
  let w3 := Texture.selectUnit w2 unit
  if (w3.tex this).boundUnit = unit then
    w3
  else
    let w4 : World := { w3 with units := Function.update w3.units unit (some this) }
    let w5 := w4.emit (.glBindTexture (w4.tex this).glType (w4.tex this).glName)
    w5.setBoundUnit this unit

/-- Method `Texture::bindAny()` (lines 274-281), called on texture `this`. -/
def Texture.bindAny (MaxTextureUnits : Nat) (w : World) (this : TexId) : World :=
  if (w.tex this).boundUnit ≠ -1 then
    Texture.selectUnit (Texture.markAsUsed w (w.tex this).boundUnit) (w.tex this).boundUnit
  else
    Texture.bind w this (Texture.selectVictimUnit MaxTextureUnits w)

/-- Method `Texture::setFilter(clamp, linear)` (lines 152-175), called on texture `this`. -/
def Texture.setFilter (MaxTextureUnits : Nat) (w : World) (this : TexId)
    (clamp linear : Bool) : World :=
  let coord_mode := if clamp then GL_CLAMP_TO_EDGE else GL_MIRRORED_REPEAT
  let inter_mode := if linear then GL_LINEAR else GL_NEAREST
  let w1 := Texture.bindAny MaxTextureUnits w this
  let t := w1.tex this
  let w2 := if t.type.toInt > TextureType.TEXTURE_BUFFER.toInt then
      w1.emit (.glTexParameteri t.glType GL_TEXTURE_WRAP_S coord_mode) else w1
  let w3 := if t.type.toInt > TextureType.TEXTURE_1D.toInt then
      w2.emit (.glTexParameteri t.glType GL_TEXTURE_WRAP_T coord_mode) else w2
  let w4 := if t.type.toInt > TextureType.TEXTURE_2D.toInt ∨ t.type = .TEXTURE_CUBE then
      w3.emit (.glTexParameteri t.glType GL_TEXTURE_WRAP_R coord_mode) else w3
  if t.type ≠ .TEXTURE_BUFFER then
    ((w4.emit (.glTexParameteri t.glType GL_TEXTURE_MIN_FILTER inter_mode)).emit
      (.glTexParameteri t.glType GL_TEXTURE_MAG_FILTER inter_mode)).emit
      (.glTexParameteri t.glType GL_TEXTURE_MAX_LEVEL (t.levels - 1))
  else
    w4

/-- Assignment to the `_glName` member of texture `t`. -/
def World.setGlName (w : World) (t : TexId) (name : Nat) : World :=
  { w with tex := Function.update w.tex t { w.tex t with glName := name } }

/-- The storage call that the `switch (_type)` of `Texture::init` issues (lines 182-198). -/
def Texture.storageCall (t : Texture) (bufferObject : Nat) : GlCall :=
  match t.type with
  | .TEXTURE_BUFFER => .glTexBuffer GL_TEXTURE_BUFFER t.glFormat bufferObject
  | .TEXTURE_1D => .glTexStorage1D GL_TEXTURE_1D t.levels t.glFormat t.width
  | .TEXTURE_CUBE => .glTexStorage2D GL_TEXTURE_CUBE_MAP t.levels t.glFormat t.width t.height
  | .TEXTURE_2D => .glTexStorage2D GL_TEXTURE_2D t.levels t.glFormat t.width t.height
  | .TEXTURE_3D => .glTexStorage3D GL_TEXTURE_3D t.levels t.glFormat t.width t.height t.depth

/-- Method `Texture::init(bufferObject)` (lines 177-203), called on texture `this`;
`name` is the texture name that `glGenTextures` writes into `_glName`. -/
def Texture.init (MaxTextureUnits : Nat) (w : World) (this : TexId) (bufferObject : Nat)
    (name : Nat) : World :=
  let w1 := (w.emit (.glGenTextures 1)).setGlName this name
  let w2 := Texture.bindAny MaxTextureUnits w1 this
  let w3 := w2.emit ((w2.tex this).storageCall bufferObject)
  let w4 : World := { w3 with memoryUsage := (w3.memoryUsage + (w3.tex this).size) % 2 ^ 64 }
  Texture.setFilter MaxTextureUnits w4 this true true

/-- Destructor `Texture::~Texture()` (lines 104-109), run on texture `this`; the
subtraction is an `unsigned long long` subtraction. -/
def Texture.destroy (w : World) (this : TexId) : World :=
  if (w.tex this).glName ≠ 0 then
    { w with memoryUsage := (w.memoryUsage + 2 ^ 64 - (w.tex this).size) % 2 ^ 64 }.emit
      (.glDeleteTextures 1 (w.tex this).glName)
  else
    w

/-- States the texture-unit protocol can reach: from the initial state with every texture
unbound, by `bind(unit)` with `0 ≤ unit < MaxTextureUnits` and by `bindAny()`, on any
textures. -/
inductive Reachable (MaxTextureUnits : Nat) : World → Prop
  | initial (tex : TexId → Texture) (h : ∀ t, (tex t).boundUnit = -1) :
      Reachable MaxTextureUnits (World.initial tex)
  | bind {w : World} (this : TexId) (unit : Int) (hw : Reachable MaxTextureUnits w)
      (h0 : 0 ≤ unit) (hN : unit < MaxTextureUnits) :
      Reachable MaxTextureUnits (Texture.bind w this unit)
  | bindAny {w : World} (this : TexId) (hw : Reachable MaxTextureUnits w) :
      Reachable MaxTextureUnits (Texture.bindAny MaxTextureUnits w this)

/-! ## Shader uniform cache (Shader.cpp, lines 143-219) -/

/-- One element of `_uniformVals`.

Modelled from the spec: the union type is declared in a header that is not among the
sources; by the spec's section 9 it is "one value slot reused across int/float/vector
arities". The members `i`, `i2[2]`, `i3[3]` and `i4[4]` that Shader.cpp reads and writes
start at the same address, so `i` and the elements `[0]` are `w0`, the elements `[1]` are
`w1`, and so on. -/
structure UniformValue where
  w0 : Int
  w1 : Int
  w2 : Int
  w3 : Int
  deriving DecidableEq

/-- Data members of a `Shader` that the uniform setters use. -/
structure Shader where
  program : Int
  uniformCount : Int
  uniformHash : Int → Int
  uniformLocation : Int → Int
  uniformVals : Int → UniformValue

/-- What the uniform setters call outside Shader.cpp: `stringHash` of a header that is not
among the sources, and the device query `glGetUniformLocation(program, name)`. -/
structure UniformEnv where
  stringHash : String → Int
  glGetUniformLocation : Int → String → Int

/-- A `Shader` as its constructors leave the uniform cache: `_uniformCount(0)` is the only
member of the cache in the initialiser lists, so the three arrays hold whatever their
storage held (`hash0`, `location0`, `vals0`). -/
def Shader.constructed (program : Int) (hash0 location0 : Int → Int)
    (vals0 : Int → UniformValue) : Shader :=
  { program := program, uniformCount := 0, uniformHash := hash0,
    uniformLocation := location0, uniformVals := vals0 }

/-- Method `Shader::uniformIndex(name)` (lines 143-156): the updated shader and the
index returned. -/
def Shader.uniformIndex (env : UniformEnv) (s : Shader) (name : String) : Shader × Int :=
  let hash := env.stringHash name
  match (List.range s.uniformCount.toNat).find?
      (fun (i : Nat) => decide (s.uniformHash (i : Int) = hash)) with
  | some i => (s, (i : Int))
  | none =>
    let s1 : Shader := { s with uniformHash := Function.update s.uniformHash s.uniformCount hash }
    let location := env.glGetUniformLocation s1.program name
    let s2 : Shader :=
      { s1 with uniformLocation := Function.update s1.uniformLocation s1.uniformCount location }
    let s3 : Shader := { s2 with uniformCount := s2.uniformCount + 1 }
    (s3, s3.uniformCount - 1)

/-- Method `Shader::uniformI(name, i)` (lines 181-187): the updated shader and the device
calls issued. -/
def Shader.uniformI (env : UniformEnv) (s : Shader) (name : String) (i : Int) :
    Shader × List GlCall :=
  let (s1, t) := Shader.uniformIndex env s name
  if (s1.uniformVals t).w0 ≠ i then
    let vals := Function.update s1.uniformVals t { s1.uniformVals t with w0 := i }
    ({ s1 with uniformVals := vals },
     [.glUniform1i (s1.uniformLocation t) i])
  else
    (s1, [])

/-- Method `Shader::uniformI(name, i1, i2)` (lines 189-196). -/
def Shader.uniformI2 (env : UniformEnv) (s : Shader) (name : String) (i1 i2 : Int) :
    Shader × List GlCall :=
  let (s1, t) := Shader.uniformIndex env s name
  if (s1.uniformVals t).w0 ≠ i1 ∨ (s1.uniformVals t).w1 ≠ i2 then
    let vals := Function.update s1.uniformVals t { s1.uniformVals t with w0 := i1, w1 := i2 }
    ({ s1 with uniformVals := vals },
     [.glUniform2i (s1.uniformLocation t) i1 i2])
  else
    (s1, [])

/-- Method `Shader::uniformI(name, i1, i2, i3)` (lines 198-207). -/
def Shader.uniformI3 (env : UniformEnv) (s : Shader) (name : String) (i1 i2 i3 : Int) :
    Shader × List GlCall :=
  let (s1, t) := Shader.uniformIndex env s name
  if (s1.uniformVals t).w0 ≠ i1 ∨ (s1.uniformVals t).w1 ≠ i2 ∨ (s1.uniformVals t).w2 ≠ i3 then
    let vals :=
      Function.update s1.uniformVals t { s1.uniformVals t with w0 := i1, w1 := i2, w2 := i3 }
    ({ s1 with uniformVals := vals },
     [.glUniform3i (s1.uniformLocation t) i1 i2 i3])
  else
    (s1, [])

/-- Method `Shader::uniformI(name, i1, i2, i3, i4)` (lines 209-219). -/
def Shader.uniformI4 (env : UniformEnv) (s : Shader) (name : String) (i1 i2 i3 i4 : Int) :
    Shader × List GlCall :=
  let (s1, t) := Shader.uniformIndex env s name
  if (s1.uniformVals t).w0 ≠ i1 ∨ (s1.uniformVals t).w1 ≠ i2 ∨ (s1.uniformVals t).w2 ≠ i3
      ∨ (s1.uniformVals t).w3 ≠ i4 then
    let vals :=
      Function.update s1.uniformVals t
        { s1.uniformVals t with w0 := i1, w1 := i2, w2 := i3, w3 := i4 }
    ({ s1 with uniformVals := vals },
     [.glUniform4i (s1.uniformLocation t) i1 i2 i3 i4])
  else
    (s1, [])

/-- The device calls issued by each of `n` consecutive calls of one setter, in call order. -/
def callsOfRepeated (setter : Shader → Shader × List GlCall) : Nat → Shader → List (List GlCall)
  | 0, _ => []
  | n + 1, s => (setter s).2 :: callsOfRepeated setter n (setter s).1

/-! ## Auxiliary definitions for the statements -/

/-- Bound unit that `bind(unit)` on `this` leaves in texture `t`. -/
def boundAfterBind (w : World) (this : TexId) (unit : Int) (t : TexId) : Int :=
  if t = this then unit else if w.units unit = some t then -1 else (w.tex t).boundUnit

/-- Bound unit of `this` at the test `_boundUnit == unit` of `bind(unit)`, after the
occupant of the unit has been demoted. -/
def boundAtTest (w : World) (this : TexId) (unit : Int) : Int :=
  if w.units unit = some this then -1 else (w.tex this).boundUnit

/-- Consistency of the texture-unit bookkeeping that `bind` and `bindAny` maintain: every
recorded bound unit is "unbound" or a unit of the table, and the slot of a recorded bound
unit holds the texture that records it. -/
def UnitInv (n : Nat) (w : World) : Prop :=
  (∀ t, (w.tex t).boundUnit = -1 ∨ (0 ≤ (w.tex t).boundUnit ∧ (w.tex t).boundUnit < n))
  ∧ (∀ t, (w.tex t).boundUnit ≠ -1 → w.units (w.tex t).boundUnit = some t)

/-- Texture objects of the examples: every texture is a 256x256 2D texture as its
constructor leaves it. -/
def exampleTextures : TexId → Texture :=
  fun _ => Texture.construct .TEXTURE_2D 256 256 1 1

/-- State after texture 0 is bound to unit 0 and texture 1 to unit 1. -/
def twoBoundWorld : World :=
  Texture.bind (Texture.bind (World.initial exampleTextures) 0 0) 1 1

/-- A 256x256 2D texture after `setFormat(TEXEL_FLOAT, 4, 4)` has succeeded on it. -/
def formattedTexture : Texture :=
  { Texture.construct .TEXTURE_2D 256 256 1 1 with
    texelType := .TEXEL_FLOAT, channels := 4, chanBytes := 4, glFormat := GL_RGBA32F,
    glChanType := GL_RGBA, elementType := GL_FLOAT, elementSize := 16 }

/-- State with no texture memory in use, every texture the formatted 256x256 2D float
texture with 4 channels of 4 bytes, not yet initialised. -/
def formattedWorld : World :=
  World.initial (fun _ => formattedTexture)

/-- The common shape of the four integer setters: look the name up, and unless the slot
already `holds` the values, issue `call` at the cached location and `store` the values. -/
def cachedSet (env : UniformEnv) (name : String) (holds : UniformValue → Bool)
    (store : UniformValue → UniformValue) (call : Int → GlCall) (s : Shader) :
    Shader × List GlCall :=
  if holds ((Shader.uniformIndex env s name).1.uniformVals (Shader.uniformIndex env s name).2)
  then ((Shader.uniformIndex env s name).1, [])
  else
    ({ (Shader.uniformIndex env s name).1 with
        uniformVals := Function.update (Shader.uniformIndex env s name).1.uniformVals
          (Shader.uniformIndex env s name).2
          (store ((Shader.uniformIndex env s name).1.uniformVals
            (Shader.uniformIndex env s name).2)) },
      [call ((Shader.uniformIndex env s name).1.uniformLocation
        (Shader.uniformIndex env s name).2)])

/-- A `Shader` as constructed whose value storage happens to be zero-filled. -/
def zeroedShader (program : Int) (hash0 location0 : Int → Int) : Shader :=
  Shader.constructed program hash0 location0 (fun _ => { w0 := 0, w1 := 0, w2 := 0, w3 := 0 })

/-- State after texture 0 has been bound to unit 0: texture 0 is resident at unit 0, which
is also the selected unit. -/
def residentWorld : World :=
  Texture.bind (World.initial exampleTextures) 0 0

/-- States reached from the initial state by exactly `k` calls of `bind(unit)` (valid unit)
and `bindAny()`. Each such call issues exactly one ticket, so `k` is the number of tickets
issued so far. -/
inductive ReachableIn (MaxTextureUnits : Nat) : Nat → World → Prop
  | initial (tex : TexId → Texture) (h : ∀ t, (tex t).boundUnit = -1) :
      ReachableIn MaxTextureUnits 0 (World.initial tex)
  | bind {k : Nat} {w : World} (this : TexId) (unit : Int)
      (hw : ReachableIn MaxTextureUnits k w)
      (h0 : 0 ≤ unit) (hN : unit < MaxTextureUnits) :
      ReachableIn MaxTextureUnits (k + 1) (Texture.bind w this unit)
  | bindAny {k : Nat} {w : World} (this : TexId) (hw : ReachableIn MaxTextureUnits k w) :
      ReachableIn MaxTextureUnits (k + 1) (Texture.bindAny MaxTextureUnits w this)

/-- The unit that `bindAny()` on `this` stamps: the bound unit of a resident texture, the
victim unit otherwise. -/
def stampedUnit (n : Nat) (w : World) (this : TexId) : Int :=
  if (w.tex this).boundUnit ≠ -1 then (w.tex this).boundUnit else Texture.selectVictimUnit n w

/-- State after texture 0 has been bound to unit 0, texture 1 to unit 1 and then texture 2
to unit 0. -/
def threeBindsWorld : World :=
  Texture.bind twoBoundWorld 2 0

/-! ## Texture units: what `bind` and `bindAny` do to the state -/

theorem withBoundUnit_boundUnit (t : Texture) (u : Int) : (t.withBoundUnit u).boundUnit = u := rfl

theorem withBoundUnit_withBoundUnit (t : Texture) (u v : Int) :
    (t.withBoundUnit u).withBoundUnit v = t.withBoundUnit v := rfl

theorem withBoundUnit_self (t : Texture) : t.withBoundUnit t.boundUnit = t := rfl

theorem withBoundUnit_size (t : Texture) (u : Int) : (t.withBoundUnit u).size = t.size := rfl

theorem selectUnit_tex (w : World) (u : Int) : (Texture.selectUnit w u).tex = w.tex := by
  unfold Texture.selectUnit World.emit; split <;> rfl

theorem selectUnit_units (w : World) (u : Int) : (Texture.selectUnit w u).units = w.units := by
  unfold Texture.selectUnit World.emit; split <;> rfl

theorem selectUnit_unitTicket (w : World) (u : Int) :
    (Texture.selectUnit w u).unitTicket = w.unitTicket := by
  unfold Texture.selectUnit World.emit; split <;> rfl

theorem selectUnit_memoryUsage (w : World) (u : Int) :
    (Texture.selectUnit w u).memoryUsage = w.memoryUsage := by
  unfold Texture.selectUnit World.emit; split <;> rfl

theorem bind_tex (w : World) (this : TexId) (unit : Int) (t : TexId) :
    (Texture.bind w this unit).tex t = (w.tex t).withBoundUnit (boundAfterBind w this unit t) := by
  unfold Texture.bind boundAfterBind
  cases hocc : w.units unit with
  | none =>
    simp only [selectUnit_tex, Texture.markAsUsed, World.setBoundUnit, World.emit]
    by_cases hb : (w.tex this).boundUnit = unit
    · rw [if_pos hb]
      by_cases ht : t = this
      · subst ht; rw [if_pos rfl, selectUnit_tex, ← hb]; rfl
      · rw [if_neg ht, selectUnit_tex]; simp; rfl
    · rw [if_neg hb]
      by_cases ht : t = this
      · subst ht; simp
      · simp [ht, Function.update]; rfl
  | some occ =>
    simp only [selectUnit_tex, Texture.markAsUsed, World.setBoundUnit, World.emit]
    by_cases hb : (Function.update w.tex occ ((w.tex occ).withBoundUnit (-1)) this).boundUnit = unit
    · rw [if_pos hb, selectUnit_tex]
      by_cases ht : t = this
      · subst ht
        rw [if_pos rfl, ← hb]
        by_cases ho : t = occ
        · subst ho; simp; rfl
        · simp [ho, Function.update]; rfl
      · by_cases ho : t = occ
        · subst ho; simp [ht]
        · simp [ht, ho, Function.update, Ne.symm ho]; rfl
    · rw [if_neg hb]
      by_cases ht : t = this
      · subst ht
        by_cases ho : t = occ
        · subst ho; simp; rfl
        · simp [ho, Function.update]
      · by_cases ho : t = occ
        · subst ho; simp [ht, Function.update]
        · simp [ht, ho, Function.update, Ne.symm ho]; rfl

theorem bind_units (w : World) (this : TexId) (unit : Int) :
    (Texture.bind w this unit).units
      = if boundAtTest w this unit = unit then w.units
        else Function.update w.units unit (some this) := by
  unfold Texture.bind boundAtTest
  cases hocc : w.units unit with
  | none =>
    simp only [selectUnit_tex, Texture.markAsUsed, World.setBoundUnit, World.emit]
    by_cases hb : (w.tex this).boundUnit = unit
    · simp [hb, selectUnit_units]
    · simp [hb, selectUnit_units]
  | some occ =>
    simp only [selectUnit_tex, Texture.markAsUsed, World.setBoundUnit, World.emit]
    by_cases ho : occ = this
    · subst ho
      simp only [Function.update_same, withBoundUnit_boundUnit, if_true]
      by_cases hu : (-1 : Int) = unit
      · simp [hu, selectUnit_units]
      · simp [hu, selectUnit_units]
    · have ho2 : this ≠ occ := fun h => ho h.symm
      simp only [Function.update_noteq ho2, Option.some.injEq, ho, if_false]
      by_cases hb : (w.tex this).boundUnit = unit
      · simp [hb, selectUnit_units]
      · simp [hb, selectUnit_units]

theorem bind_memoryUsage (w : World) (this : TexId) (unit : Int) :
    (Texture.bind w this unit).memoryUsage = w.memoryUsage := by
  unfold Texture.bind
  cases hocc : w.units unit <;>
    simp only [Texture.markAsUsed, World.setBoundUnit, World.emit] <;>
    split <;> simp [selectUnit_memoryUsage]

theorem bindAny_memoryUsage (n : Nat) (w : World) (this : TexId) :
    (Texture.bindAny n w this).memoryUsage = w.memoryUsage := by
  unfold Texture.bindAny
  split
  · simp [selectUnit_memoryUsage, Texture.markAsUsed]
  · exact bind_memoryUsage _ _ _

theorem bindAny_tex_resident (n : Nat) (w : World) (this : TexId)
    (h : (w.tex this).boundUnit ≠ -1) : (Texture.bindAny n w this).tex = w.tex := by
  unfold Texture.bindAny
  rw [if_pos h, selectUnit_tex]; rfl

theorem bindAny_units_resident (n : Nat) (w : World) (this : TexId)
    (h : (w.tex this).boundUnit ≠ -1) : (Texture.bindAny n w this).units = w.units := by
  unfold Texture.bindAny
  rw [if_pos h, selectUnit_units]; rfl

theorem bindAny_unbound (n : Nat) (w : World) (this : TexId)
    (h : (w.tex this).boundUnit = -1) :
    Texture.bindAny n w this = Texture.bind w this (Texture.selectVictimUnit n w) := by
  unfold Texture.bindAny
  rw [if_neg (by simpa using h)]

/-- What the loop of `selectVictimUnit` has established after the iterations `1 .. m`. -/
theorem victimScan_spec (tk : Int → Int) (m : Nat) :
    let acc := (List.range' 1 m).foldl (victimStep tk) (tk 0, 0)
    acc.1 = tk acc.2 ∧ 0 ≤ acc.2 ∧ acc.2 ≤ (m : Int)
      ∧ (∀ i : Nat, i ≤ m → acc.1 ≤ tk (i : Int))
      ∧ (∀ i : Nat, (i : Int) < acc.2 → acc.1 < tk (i : Int)) := by
  induction m with
  | zero =>
    show (tk 0, (0 : Int)).1 = tk (tk 0, (0 : Int)).2 ∧ 0 ≤ (tk 0, (0 : Int)).2
      ∧ (tk 0, (0 : Int)).2 ≤ ((0 : Nat) : Int)
      ∧ (∀ i : Nat, i ≤ 0 → (tk 0, (0 : Int)).1 ≤ tk (i : Int))
      ∧ (∀ i : Nat, (i : Int) < (tk 0, (0 : Int)).2 → (tk 0, (0 : Int)).1 < tk (i : Int))
    refine ⟨rfl, le_refl _, le_refl _, ?_, ?_⟩
    · intro i hi
      have : i = 0 := by omega
      subst this; simp
    · intro i hi
      omega
  | succ m ih =>
    simp only [List.range'_concat, List.foldl_append, List.foldl_cons, List.foldl_nil, one_mul]
    simp only at ih
    generalize (List.range' 1 m).foldl (victimStep tk) (tk 0, 0) = acc at ih ⊢
    obtain ⟨h1, h2, h3, h4, h5⟩ := ih
    unfold victimStep
    by_cases hlt : tk ((1 + m : Nat) : Int) < acc.1
    · rw [if_pos hlt]
      refine ⟨rfl, by positivity, by push_cast; omega, ?_, ?_⟩
      · intro i hi
        by_cases him : i ≤ m
        · exact le_of_lt (lt_of_lt_of_le hlt (h4 i him))
        · have : i = 1 + m := by omega
          subst this; exact le_refl _
      · intro i hi
        have him : i ≤ m := by
          have : (i : Int) < ((1 + m : Nat) : Int) := hi
          omega
        exact lt_of_lt_of_le hlt (h4 i him)
    · rw [if_neg hlt]
      refine ⟨h1, h2, by push_cast; omega, ?_, h5⟩
      intro i hi
      by_cases him : i ≤ m
      · exact h4 i him
      · have : i = 1 + m := by omega
        subst this; exact not_lt.mp hlt

/-- The victim is a unit of the table, its ticket is minimal over all units, and every unit
of lower index has a strictly greater ticket. -/
theorem selectVictimUnit_spec (n : Nat) (hn : 0 < n) (w : World) :
    0 ≤ Texture.selectVictimUnit n w ∧ Texture.selectVictimUnit n w < n
      ∧ (∀ i : Int, 0 ≤ i → i < n →
          w.unitTicket (Texture.selectVictimUnit n w) ≤ w.unitTicket i)
      ∧ (∀ i : Int, 0 ≤ i → i < Texture.selectVictimUnit n w →
          w.unitTicket (Texture.selectVictimUnit n w) < w.unitTicket i) := by
  have h := victimScan_spec w.unitTicket (n - 1)
  simp only at h
  unfold Texture.selectVictimUnit
  generalize (List.range' 1 (n - 1)).foldl (victimStep w.unitTicket) (w.unitTicket 0, 0) = acc
    at h ⊢
  obtain ⟨h1, h2, h3, h4, h5⟩ := h
  refine ⟨h2, by omega, ?_, ?_⟩
  · intro i hi0 hin
    have := h4 i.toNat (by omega)
    rw [Int.toNat_of_nonneg hi0] at this
    rw [← h1]; exact this
  · intro i hi0 hiv
    have := h5 i.toNat (by rw [Int.toNat_of_nonneg hi0]; exact hiv)
    rw [Int.toNat_of_nonneg hi0] at this
    rw [← h1]; exact this

theorem bind_boundUnit (w : World) (this : TexId) (unit : Int) (t : TexId) :
    ((Texture.bind w this unit).tex t).boundUnit = boundAfterBind w this unit t := by
  rw [bind_tex]; rfl

theorem unitInv_initial (n : Nat) (tex : TexId → Texture) (h : ∀ t, (tex t).boundUnit = -1) :
    UnitInv n (World.initial tex) := by
  refine ⟨fun t => Or.inl (h t), fun t ht => absurd (h t) ht⟩

theorem unitInv_bind (n : Nat) (w : World) (this : TexId) (unit : Int)
    (hinv : UnitInv n w) (h0 : 0 ≤ unit) (hn : unit < n) :
    UnitInv n (Texture.bind w this unit) := by
  obtain ⟨hr, hf⟩ := hinv
  have htest : boundAtTest w this unit ≠ unit := by
    unfold boundAtTest
    by_cases hs : w.units unit = some this
    · rw [if_pos hs]; omega
    · rw [if_neg hs]
      intro hb
      have hne : (w.tex this).boundUnit ≠ -1 := by omega
      have hslot := hf this hne
      rw [hb] at hslot
      exact hs hslot
  constructor
  · intro t
    rw [bind_boundUnit]
    unfold boundAfterBind
    by_cases ht : t = this
    · rw [if_pos ht]; exact Or.inr ⟨h0, hn⟩
    · rw [if_neg ht]
      by_cases hs : w.units unit = some t
      · rw [if_pos hs]; exact Or.inl rfl
      · rw [if_neg hs]; exact hr t
  · intro t
    rw [bind_boundUnit, bind_units, if_neg htest]
    unfold boundAfterBind
    by_cases ht : t = this
    · rw [if_pos ht, ht]
      intro _
      exact Function.update_same _ _ _
    · rw [if_neg ht]
      by_cases hs : w.units unit = some t
      · rw [if_pos hs]; intro h; exact absurd rfl h
      · rw [if_neg hs]
        intro hb
        have hslot := hf t hb
        have hne : (w.tex t).boundUnit ≠ unit := by
          intro he
          rw [he] at hslot
          exact hs hslot
        rw [Function.update_noteq hne]
        exact hslot

theorem unitInv_bindAny (n : Nat) (hn : 0 < n) (w : World) (this : TexId)
    (hinv : UnitInv n w) : UnitInv n (Texture.bindAny n w this) := by
  by_cases hb : (w.tex this).boundUnit = -1
  · rw [bindAny_unbound n w this hb]
    obtain ⟨h0, h1, _⟩ := selectVictimUnit_spec n hn w
    exact unitInv_bind n w this _ hinv h0 h1
  · unfold UnitInv
    rw [bindAny_tex_resident n w this hb, bindAny_units_resident n w this hb]
    exact hinv

/-- Every reachable state satisfies the bookkeeping invariant. -/
theorem reachable_unitInv (n : Nat) (hn : 0 < n) (w : World) (hw : Reachable n w) :
    UnitInv n w := by
  induction hw with
  | initial tex h => exact unitInv_initial n tex h
  | bind this unit _ h0 hN ih => exact unitInv_bind n _ this unit ih h0 hN
  | bindAny this _ ih => exact unitInv_bindAny n hn _ this ih

theorem exampleTextures_unbound (t : TexId) : (exampleTextures t).boundUnit = -1 := by
  simp [exampleTextures, Texture.construct]
  split <;> rfl

theorem twoBoundWorld_reachable : Reachable 2 twoBoundWorld :=
  Reachable.bind 1 1
    (Reachable.bind 0 0 (Reachable.initial _ exampleTextures_unbound) (by decide) (by decide))
    (by decide) (by decide)

/-- C2: in every reachable state, `t.bindAny()` leaves the bound unit of a resident texture
t unchanged (and that unit is a unit of the table); for a texture t that is not resident, the victim v is a unit whose ticket is
minimal over all units and the lowest index among the units of that ticket, and afterwards
t's bound unit is v, slot v holds t, and every other texture that slot v held before is
unbound (-1). -/
theorem C2_bindAny_keeps_resident_or_takes_least_ticket_unit (n : Nat) (hn : 0 < n)
    (w : World) (hw : Reachable n w) (t : TexId) :
    ((w.tex t).boundUnit ≠ -1 →
        ((Texture.bindAny n w t).tex t).boundUnit = (w.tex t).boundUnit
        ∧ 0 ≤ (w.tex t).boundUnit ∧ (w.tex t).boundUnit < n)
      ∧ ((w.tex t).boundUnit = -1 →
          0 ≤ Texture.selectVictimUnit n w ∧ Texture.selectVictimUnit n w < n
          ∧ (∀ i : Int, 0 ≤ i → i < n →
              w.unitTicket (Texture.selectVictimUnit n w) ≤ w.unitTicket i)
          ∧ (∀ i : Int, 0 ≤ i → i < n →
              w.unitTicket i = w.unitTicket (Texture.selectVictimUnit n w) →
              Texture.selectVictimUnit n w ≤ i)
          ∧ ((Texture.bindAny n w t).tex t).boundUnit = Texture.selectVictimUnit n w
          ∧ (Texture.bindAny n w t).units (Texture.selectVictimUnit n w) = some t
          ∧ (∀ s : TexId, s ≠ t → w.units (Texture.selectVictimUnit n w) = some s →
              ((Texture.bindAny n w t).tex s).boundUnit = -1)) := by
  obtain ⟨hr, _⟩ := reachable_unitInv n hn w hw
  constructor
  · intro hb
    rw [bindAny_tex_resident n w t hb]
    exact ⟨rfl, (hr t).resolve_left hb⟩
  · intro hb
    obtain ⟨h0, h1, hmin, hlow⟩ := selectVictimUnit_spec n hn w
    refine ⟨h0, h1, hmin, ?_, ?_, ?_, ?_⟩
    · intro i hi0 _ heq
      by_contra hlt
      have hlt2 : i < Texture.selectVictimUnit n w := not_le.mp hlt
      have := hlow i hi0 hlt2
      omega
    · rw [bindAny_unbound n w t hb, bind_boundUnit]
      unfold boundAfterBind
      rw [if_pos rfl]
    · rw [bindAny_unbound n w t hb, bind_units]
      have htest : boundAtTest w t (Texture.selectVictimUnit n w)
          ≠ Texture.selectVictimUnit n w := by
        unfold boundAtTest
        split
        · omega
        · rw [hb]; omega
      rw [if_neg htest]
      exact Function.update_same _ _ _
    · intro s hst hslot
      rw [bindAny_unbound n w t hb, bind_boundUnit]
      unfold boundAfterBind
      rw [if_neg hst, if_pos hslot]

/-- Witness of C2 with two units, texture 0 bound to unit 0 and texture 1 to unit 1: the
unbound texture 2 takes unit 0 (ticket 1, the least), slot 0 then holds texture 2 and
texture 0 is unbound. -/
theorem C2_bindAny_keeps_resident_or_takes_least_ticket_unit_witness :
    (0 < 2) ∧ Reachable 2 twoBoundWorld
      ∧ ((Texture.bindAny 2 twoBoundWorld 2).tex 2).boundUnit = 0
      ∧ (Texture.bindAny 2 twoBoundWorld 2).units 0 = some 2
      ∧ ((Texture.bindAny 2 twoBoundWorld 2).tex 0).boundUnit = -1
      ∧ ((Texture.bindAny 2 twoBoundWorld 1).tex 1).boundUnit = 1 := by
  have h := C2_bindAny_keeps_resident_or_takes_least_ticket_unit 2 (by decide) twoBoundWorld
    twoBoundWorld_reachable 2
  have h1 := C2_bindAny_keeps_resident_or_takes_least_ticket_unit 2 (by decide) twoBoundWorld
    twoBoundWorld_reachable 1
  have hv : Texture.selectVictimUnit 2 twoBoundWorld = 0 := by decide
  obtain ⟨_, _, _, _, hb, hu, hd⟩ := h.2 (by decide)
  rw [hv] at hb hu hd
  exact ⟨by decide, twoBoundWorld_reachable, hb, hu, hd 0 (by decide) (by decide),
    (h1.1 (by decide)).1.trans (by decide)⟩

/-- C3: for distinct textures A and B, a valid unit u and a reachable state, after
`A.bind(u)` followed by `B.bind(u)` the bound unit of A is unbound (-1), the bound unit of B
is u, and slot u of the unit table holds B. -/
theorem C3_second_bind_takes_over_unit (n : Nat) (w : World) (hw : Reachable n w)
    (A B : TexId) (hAB : A ≠ B) (u : Int) (h0 : 0 ≤ u) (hn : u < n) :
    ((Texture.bind (Texture.bind w A u) B u).tex A).boundUnit = -1
      ∧ ((Texture.bind (Texture.bind w A u) B u).tex B).boundUnit = u
      ∧ (Texture.bind (Texture.bind w A u) B u).units u = some B := by
  have hpos : 0 < n := by omega
  have hw1 : Reachable n (Texture.bind w A u) := Reachable.bind A u hw h0 hn
  obtain ⟨_, hf⟩ := reachable_unitInv n hpos _ hw1
  have hAu : ((Texture.bind w A u).tex A).boundUnit = u := by
    rw [bind_boundUnit]; unfold boundAfterBind; rw [if_pos rfl]
  have hslotA : (Texture.bind w A u).units u = some A := by
    have hne : ((Texture.bind w A u).tex A).boundUnit ≠ -1 := by omega
    have hs := hf A hne
    rw [hAu] at hs
    exact hs
  refine ⟨?_, ?_, ?_⟩
  · rw [bind_boundUnit]; unfold boundAfterBind
    rw [if_neg hAB, if_pos hslotA]
  · rw [bind_boundUnit]; unfold boundAfterBind
    rw [if_pos rfl]
  · rw [bind_units]
    have htest : boundAtTest (Texture.bind w A u) B u ≠ u := by
      unfold boundAtTest
      have hsB : (Texture.bind w A u).units u ≠ some B := by
        rw [hslotA]; intro h; exact hAB (Option.some.inj h)
      rw [if_neg hsB]
      intro hb
      have hne : ((Texture.bind w A u).tex B).boundUnit ≠ -1 := by omega
      have hs := hf B hne
      rw [hb] at hs
      exact hsB hs
    rw [if_neg htest]
    exact Function.update_same _ _ _

/-- Witness of C3 at the initial state with u = 0, A = texture 0 and B = texture 1. -/
theorem C3_second_bind_takes_over_unit_witness :
    Reachable 4 (World.initial exampleTextures) ∧ (0 : TexId) ≠ 1
      ∧ ((Texture.bind (Texture.bind (World.initial exampleTextures) 0 0) 1 0).tex 0).boundUnit
          = -1
      ∧ ((Texture.bind (Texture.bind (World.initial exampleTextures) 0 0) 1 0).tex 1).boundUnit
          = 0
      ∧ (Texture.bind (Texture.bind (World.initial exampleTextures) 0 0) 1 0).units 0 = some 1 :=
  ⟨Reachable.initial _ exampleTextures_unbound, by decide,
    C3_second_bind_takes_over_unit 4 (World.initial exampleTextures)
      (Reachable.initial _ exampleTextures_unbound) 0 1 (by decide) 0 (by decide) (by decide)⟩

/-! ## Texture formats and dimensions -/

theorem formattedTexture_eq :
    Texture.setFormat (Texture.construct .TEXTURE_2D 256 256 1 1) .TEXEL_FLOAT 4 4
      = .ok formattedTexture := by decide

/-- What a successful or failed `setFormat` has written: the three arguments always; the
four derived members only once the channel count has passed its check. -/
theorem setFormat_channelCount (t : Texture) (texel : TexelType) (channels chan_bytes : Int)
    (h : ¬ (channels = 1 ∨ channels = 2 ∨ channels = 4)) :
    Texture.setFormat t texel channels chan_bytes
      = .assertFailed .channelCount
          { t with texelType := texel, channels := channels, chanBytes := chan_bytes } := by
  unfold Texture.setFormat
  simp only [h, not_false_eq_true, if_true]

/-- C4, as stated, fails: on a texture configured as float, 4 channels, 4 bytes per channel,
`setFormat(TEXEL_INT, 3, 2)` fails on the channel count and `setFormat(TEXEL_FLOAT, 1, 3)`
fails on the format combination, and in both cases the configured state has been
overwritten at the moment of failure. -/
theorem C4_counterexample_failed_setFormat_overwrites :
    Texture.setFormat formattedTexture .TEXEL_INT 3 2
        = .assertFailed .channelCount
            { formattedTexture with texelType := .TEXEL_INT, channels := 3, chanBytes := 2 }
      ∧ Texture.setFormat formattedTexture .TEXEL_FLOAT 1 3
        = .assertFailed .invalidFormatCombination
            { formattedTexture with
              texelType := .TEXEL_FLOAT, channels := 1, chanBytes := 3,
              glFormat := 0, glChanType := GL_RED, elementType := 0, elementSize := 3 }
      ∧ formattedTexture.channels = 4 ∧ formattedTexture.chanBytes = 4
      ∧ formattedTexture.glFormat = GL_RGBA32F ∧ formattedTexture.elementSize = 16 := by
  decide

/-- C4, amended: whenever `setFormat(texel, channels, chan_bytes)` fails, the texture's texel
kind, channel count and bytes-per-channel hold the arguments of the failed call; if it
failed on the channel count, the derived device format, channel layout, element type and
element size are the same as before the call; if it failed on the format combination, the
element size is `chan_bytes * channels` and the derived format or the element type is 0.
The members `setFormat` does not assign (kind, dimensions, levels, device name, bound unit)
are the same as before the call. -/
theorem C4_failed_setFormat_state (t t1 : Texture) (texel : TexelType)
    (channels chan_bytes : Int) (msg : AssertMsg)
    (h : Texture.setFormat t texel channels chan_bytes = .assertFailed msg t1) :
    t1.texelType = texel ∧ t1.channels = channels ∧ t1.chanBytes = chan_bytes
      ∧ (msg = .channelCount →
          ¬ (channels = 1 ∨ channels = 2 ∨ channels = 4)
          ∧ t1.glFormat = t.glFormat ∧ t1.glChanType = t.glChanType
          ∧ t1.elementType = t.elementType ∧ t1.elementSize = t.elementSize)
      ∧ (msg = .invalidFormatCombination →
          (channels = 1 ∨ channels = 2 ∨ channels = 4)
          ∧ t1.elementSize = chan_bytes * channels
          ∧ (t1.glFormat = 0 ∨ t1.elementType = 0))
      ∧ t1.type = t.type ∧ t1.width = t.width ∧ t1.height = t.height ∧ t1.depth = t.depth
      ∧ t1.levels = t.levels ∧ t1.glName = t.glName ∧ t1.glType = t.glType
      ∧ t1.boundUnit = t.boundUnit := by
  unfold Texture.setFormat at h
  by_cases hc : channels = 1 ∨ channels = 2 ∨ channels = 4
  · simp only [hc, not_true_eq_false, if_false] at h
    split at h
    · rename_i f c e _ _ _
      by_cases hv : f ≠ 0 ∧ e ≠ 0
      · simp [hv] at h
      · simp only [hv, not_false_eq_true, if_true, Outcome.assertFailed.injEq] at h
        obtain ⟨hm, ht⟩ := h
        subst ht
        subst hm
        refine ⟨rfl, rfl, rfl, ?_, ?_, rfl, rfl, rfl, rfl, rfl, rfl, rfl, rfl⟩
        · intro hmsg; cases hmsg
        intro _
        refine ⟨hc, rfl, ?_⟩
        by_cases hf : f = 0
        · exact Or.inl hf
        · right
          by_contra he
          exact hv ⟨hf, he⟩
    · cases h
  · simp only [hc, not_false_eq_true, if_true, Outcome.assertFailed.injEq] at h
    obtain ⟨hm, ht⟩ := h
    subst ht
    subst hm
    refine ⟨rfl, rfl, rfl, ?_, ?_, rfl, rfl, rfl, rfl, rfl, rfl, rfl, rfl⟩
    · intro _; exact ⟨hc, rfl, rfl, rfl, rfl⟩
    · intro hmsg; cases hmsg

/-- Witness of C4 amended: `setFormat(TEXEL_INT, 3, 2)` on the float/4/4 texture fails and
leaves channel count 3 with the derived format of the earlier configuration. -/
theorem C4_failed_setFormat_state_witness :
    Texture.setFormat formattedTexture .TEXEL_INT 3 2
        = .assertFailed .channelCount
            { formattedTexture with texelType := .TEXEL_INT, channels := 3, chanBytes := 2 }
      ∧ ({ formattedTexture with texelType := .TEXEL_INT, channels := 3, chanBytes := 2 }
          : Texture).channels = 3 :=
  ⟨by decide,
    (C4_failed_setFormat_state formattedTexture _ .TEXEL_INT 3 2 .channelCount
      (by decide)).2.1⟩

/-- C5, as stated, fails: with the depth texel kind, 1 channel and 3 bytes per channel
`setFormat` does not fail; it derives the 24-bit depth format with float elements. -/
theorem C5_counterexample_depth_three_bytes_succeeds :
    Texture.setFormat (Texture.construct .TEXTURE_2D 256 256 1 1) .TEXEL_DEPTH 1 3
      = .ok { Texture.construct .TEXTURE_2D 256 256 1 1 with
              texelType := .TEXEL_DEPTH, channels := 1, chanBytes := 3,
              glFormat := GL_DEPTH_COMPONENT24, glChanType := GL_DEPTH_COMPONENT,
              elementType := GL_FLOAT, elementSize := 3 } := by
  decide

/-- C5, amended: `setFormat` fails on the channel-count check for every channel count outside
{1,2,4}, whatever the texel kind and bytes-per-channel; with 3 bytes per channel and a
channel count in {1,2,4} it fails on the format combination for the float, signed-integer
and unsigned-integer texel kinds, and for the depth and depth-stencil kinds when the channel
count is 2 or 4; for the depth and depth-stencil kinds with 1 channel and 3 bytes per
channel it succeeds. -/
theorem C5_setFormat_failures (t : Texture) (texel : TexelType) :
    (∀ channels chan_bytes : Int, ¬ (channels = 1 ∨ channels = 2 ∨ channels = 4) →
        ∃ t1, Texture.setFormat t texel channels chan_bytes = .assertFailed .channelCount t1)
      ∧ (∀ channels : Int, (channels = 1 ∨ channels = 2 ∨ channels = 4) →
          (texel = .TEXEL_FLOAT ∨ texel = .TEXEL_INT ∨ texel = .TEXEL_UINT ∨ channels ≠ 1) →
          ∃ t1, Texture.setFormat t texel channels 3
            = .assertFailed .invalidFormatCombination t1)
      ∧ ((texel = .TEXEL_DEPTH ∨ texel = .TEXEL_DEPTH_STENCIL) →
          ∃ t1, Texture.setFormat t texel 1 3 = .ok t1) := by
  refine ⟨?_, ?_, ?_⟩
  · intro channels chan_bytes h
    exact ⟨_, setFormat_channelCount t texel channels chan_bytes h⟩
  · intro channels hc hk
    rcases hc with rfl | rfl | rfl <;> cases texel <;>
      first
        | exact ⟨_, rfl⟩
        | (exfalso; revert hk; decide)
  · intro hk
    rcases hk with rfl | rfl <;> exact ⟨_, rfl⟩

/-- Witness of C5 amended: 3 channels fail on the channel count, and float with 4 channels
and 3 bytes per channel fails on the format combination. -/
theorem C5_setFormat_failures_witness :
    (∃ t1, Texture.setFormat formattedTexture .TEXEL_FLOAT 3 4
        = .assertFailed .channelCount t1)
      ∧ (∃ t1, Texture.setFormat formattedTexture .TEXEL_FLOAT 4 3
        = .assertFailed .invalidFormatCombination t1) :=
  ⟨(C5_setFormat_failures formattedTexture .TEXEL_FLOAT).1 3 4 (by decide),
    (C5_setFormat_failures formattedTexture .TEXEL_FLOAT).2.1 4 (by decide) (by decide)⟩

/-- C6, as stated, fails: float with 1 byte per channel is a valid combination (here with 1
channel it derives `GL_R8` with unsigned-byte elements), and so is depth-stencil with 3
bytes per channel and 1 channel (`GL_DEPTH24_STENCIL8`). -/
theorem C6_counterexample_float_one_byte_succeeds :
    Texture.setFormat (Texture.construct .TEXTURE_2D 256 256 1 1) .TEXEL_FLOAT 1 1
        = .ok { Texture.construct .TEXTURE_2D 256 256 1 1 with
                texelType := .TEXEL_FLOAT, channels := 1, chanBytes := 1,
                glFormat := GL_R8, glChanType := GL_RED,
                elementType := GL_UNSIGNED_BYTE, elementSize := 1 }
      ∧ Texture.setFormat (Texture.construct .TEXTURE_2D 256 256 1 1) .TEXEL_DEPTH_STENCIL 1 3
        = .ok { Texture.construct .TEXTURE_2D 256 256 1 1 with
                texelType := .TEXEL_DEPTH_STENCIL, channels := 1, chanBytes := 3,
                glFormat := GL_DEPTH24_STENCIL8, glChanType := GL_DEPTH_STENCIL,
                elementType := GL_FLOAT, elementSize := 3 } := by
  decide

/-- C6, amended: for the float texel kind with 1 byte per channel `setFormat` succeeds for
every channel count in {1,2,4}, deriving the format R8 for 1 channel, RG8 for 2 channels and
RGBA8 for 4 channels, with unsigned-byte elements; for the depth-stencil texel kind with 3
bytes per channel it succeeds with 1 channel (DEPTH24_STENCIL8) and fails with an
invalid-format-combination error with 2 or 4 channels, because the format read from the
table keyed by (texel kind, bytes-per-channel - 1, channels - 1) is 0 there. -/
theorem C6_float_one_byte_and_depth_stencil_three_bytes (t : Texture) :
    (∀ channels : Int, (channels = 1 ∨ channels = 2 ∨ channels = 4) →
        ∃ t1, Texture.setFormat t .TEXEL_FLOAT channels 1 = .ok t1
          ∧ (channels = 1 → t1.glFormat = GL_R8)
          ∧ (channels = 2 → t1.glFormat = GL_RG8)
          ∧ (channels = 4 → t1.glFormat = GL_RGBA8)
          ∧ t1.elementType = GL_UNSIGNED_BYTE ∧ t1.elementSize = channels)
      ∧ (∃ t1, Texture.setFormat t .TEXEL_DEPTH_STENCIL 1 3 = .ok t1
          ∧ t1.glFormat = GL_DEPTH24_STENCIL8)
      ∧ (∀ channels : Int, (channels = 2 ∨ channels = 4) →
          ∃ t1, Texture.setFormat t .TEXEL_DEPTH_STENCIL channels 3
              = .assertFailed .invalidFormatCombination t1
            ∧ t1.glFormat = 0) := by
  refine ⟨?_, ⟨_, rfl, rfl⟩, ?_⟩
  · intro channels hc
    rcases hc with rfl | rfl | rfl
    · exact ⟨_, rfl, fun _ => rfl, fun h => absurd h (by decide),
        fun h => absurd h (by decide), rfl, rfl⟩
    · exact ⟨_, rfl, fun h => absurd h (by decide), fun _ => rfl,
        fun h => absurd h (by decide), rfl, rfl⟩
    · exact ⟨_, rfl, fun h => absurd h (by decide), fun h => absurd h (by decide),
        fun _ => rfl, rfl, rfl⟩
  · intro channels hc
    rcases hc with rfl | rfl <;> exact ⟨_, rfl, rfl⟩

/-- Witness of C6 amended: float, 4 channels, 1 byte per channel gives RGBA8, and
depth-stencil with 2 channels and 3 bytes per channel fails. -/
theorem C6_float_one_byte_and_depth_stencil_three_bytes_witness :
    (∃ t1, Texture.setFormat formattedTexture .TEXEL_FLOAT 4 1 = .ok t1
        ∧ t1.glFormat = GL_RGBA8
        ∧ t1.elementType = GL_UNSIGNED_BYTE ∧ t1.elementSize = 4)
      ∧ (∃ t1, Texture.setFormat formattedTexture .TEXEL_DEPTH_STENCIL 2 3
            = .assertFailed .invalidFormatCombination t1
          ∧ t1.glFormat = 0) := by
  obtain ⟨t1, h1, _, _, h4, he, hs⟩ :=
    (C6_float_one_byte_and_depth_stencil_three_bytes formattedTexture).1 4 (by decide)
  exact ⟨⟨t1, h1, h4 rfl, he, hs⟩,
    (C6_float_one_byte_and_depth_stencil_three_bytes formattedTexture).2.2 2 (by decide)⟩

/-- C9, as stated, fails: a buffer texture constructed with width 7 records width 1. -/
theorem C9_counterexample_buffer_width_is_one :
    (Texture.construct .TEXTURE_BUFFER 7 5 3 1).width = 1
      ∧ (Texture.construct .TEXTURE_BUFFER 7 5 3 1).width ≠ 7 := by
  decide

/-- C9, amended: for every constructor arguments (width w, height h, depth d), a buffer
texture records width = height = depth = 1; a 1D texture records width w with
height = depth = 1; a cube or 2D texture records width w and height h with depth = 1; a 3D
texture records w, h and d. -/
theorem C9_constructor_dimensions (w h d levels : Int) :
    ((Texture.construct .TEXTURE_BUFFER w h d levels).width = 1
        ∧ (Texture.construct .TEXTURE_BUFFER w h d levels).height = 1
        ∧ (Texture.construct .TEXTURE_BUFFER w h d levels).depth = 1)
      ∧ ((Texture.construct .TEXTURE_1D w h d levels).width = w
        ∧ (Texture.construct .TEXTURE_1D w h d levels).height = 1
        ∧ (Texture.construct .TEXTURE_1D w h d levels).depth = 1)
      ∧ ((Texture.construct .TEXTURE_CUBE w h d levels).width = w
        ∧ (Texture.construct .TEXTURE_CUBE w h d levels).height = h
        ∧ (Texture.construct .TEXTURE_CUBE w h d levels).depth = 1)
      ∧ ((Texture.construct .TEXTURE_2D w h d levels).width = w
        ∧ (Texture.construct .TEXTURE_2D w h d levels).height = h
        ∧ (Texture.construct .TEXTURE_2D w h d levels).depth = 1)
      ∧ ((Texture.construct .TEXTURE_3D w h d levels).width = w
        ∧ (Texture.construct .TEXTURE_3D w h d levels).height = h
        ∧ (Texture.construct .TEXTURE_3D w h d levels).depth = d) :=
  ⟨⟨rfl, rfl, rfl⟩, ⟨rfl, rfl, rfl⟩, ⟨rfl, rfl, rfl⟩, ⟨rfl, rfl, rfl⟩, ⟨rfl, rfl, rfl⟩⟩

/-! ## Texture size and the memory counter -/

theorem toULL_natCast (k : Nat) : toULL (k : Int) = k % 2 ^ 64 := by
  unfold toULL
  omega

theorem size_lt (t : Texture) : t.size < 2 ^ 64 := by
  unfold Texture.size
  split <;> exact Nat.mod_lt _ (by norm_num)

/-- With non-negative dimensions and element size, `size()` is the plain product reduced
modulo `2^64`. -/
theorem size_of_nonneg (t : Texture) (W H D E : Nat) (hW : (W : Int) = t.width)
    (hH : (H : Int) = t.height) (hD : (D : Int) = t.depth) (hE : (E : Int) = t.elementSize) :
    t.size = match t.type with
      | .TEXTURE_BUFFER => (W * E) % 2 ^ 64
      | .TEXTURE_1D => (W * E) % 2 ^ 64
      | .TEXTURE_CUBE => (W * H * E * 6) % 2 ^ 64
      | .TEXTURE_2D => (W * H * E) % 2 ^ 64
      | .TEXTURE_3D => (W * H * D * E) % 2 ^ 64 := by
  unfold Texture.size
  rw [← hW, ← hH, ← hD, ← hE]
  simp only [toULL_natCast]
  have key : ∀ a : Nat, a % 2 ^ 64 ≡ a [MOD 2 ^ 64] := fun a => Nat.mod_modEq a _
  have hWE : (W % 2 ^ 64 * (E % 2 ^ 64)) ≡ W * E [MOD 2 ^ 64] := (key W).mul (key E)
  have hWH : (W % 2 ^ 64 * (H % 2 ^ 64)) % 2 ^ 64 ≡ W * H [MOD 2 ^ 64] :=
    (key _).trans ((key W).mul (key H))
  have hWHE : ((W % 2 ^ 64 * (H % 2 ^ 64)) % 2 ^ 64 * (E % 2 ^ 64)) ≡ W * H * E [MOD 2 ^ 64] :=
    hWH.mul (key E)
  have hWHD : ((W % 2 ^ 64 * (H % 2 ^ 64)) % 2 ^ 64 * (D % 2 ^ 64)) % 2 ^ 64
      ≡ W * H * D [MOD 2 ^ 64] := (key _).trans (hWH.mul (key D))
  cases t.type
  · exact hWE
  · exact hWE
  · exact ((key _).trans hWHE).mul_right 6
  · exact hWHE
  · exact hWHD.mul (key E)

theorem cIndex_nonneg {α : Type} (xs : List α) (i : Int) (a : α) (h : cIndex xs i = some a) :
    0 ≤ i := by
  unfold cIndex at h
  by_contra hneg
  rw [if_neg hneg] at h
  cases h

/-- What a successful `setFormat` leaves in the object. -/
theorem setFormat_ok (t0 t : Texture) (texel : TexelType) (channels chan_bytes : Int)
    (h : Texture.setFormat t0 texel channels chan_bytes = .ok t) :
    t.elementSize = chan_bytes * channels ∧ (channels = 1 ∨ channels = 2 ∨ channels = 4)
      ∧ 1 ≤ chan_bytes ∧ t.type = t0.type ∧ t.width = t0.width ∧ t.height = t0.height
      ∧ t.depth = t0.depth := by
  unfold Texture.setFormat at h
  by_cases hc : channels = 1 ∨ channels = 2 ∨ channels = 4
  · simp only [hc, not_true_eq_false, if_false] at h
    split at h
    · rename_i f c e _ _ hT
      have hcb : 1 ≤ chan_bytes := by
        cases hrow : cIndex GlTypeTable texel.toInt with
        | none => rw [hrow] at hT; cases hT
        | some row =>
          rw [hrow] at hT
          have := cIndex_nonneg row (chan_bytes - 1) e hT
          omega
      by_cases hv : f ≠ 0 ∧ e ≠ 0
      · rw [if_neg (not_not.mpr hv)] at h
        cases h
        exact ⟨rfl, hc, hcb, rfl, rfl, rfl, rfl⟩
      · rw [if_pos hv] at h
        cases h
    · cases h
  · simp [hc] at h

/-- C8: for a texture whose format was set successfully (so that the element size is
bytes-per-channel times channels) and whose recorded dimensions are non-negative, wherever
the product does not overflow 64 bits, `size()` is width*height*elementSize*6 for a cube
texture, width*height*depth*elementSize for a 3D texture, width*height*elementSize for a 2D
texture and width*elementSize for a 1D or buffer texture. -/
theorem C8_size_by_dimensionality (t0 t : Texture) (texel : TexelType)
    (channels chan_bytes : Int)
    (hfmt : Texture.setFormat t0 texel channels chan_bytes = .ok t)
    (hw : 0 ≤ t.width) (hh : 0 ≤ t.height) (hd : 0 ≤ t.depth) :
    t.elementSize = chan_bytes * channels
      ∧ (t.type = .TEXTURE_CUBE → t.width * t.height * t.elementSize * 6 < 2 ^ 64 →
          (t.size : Int) = t.width * t.height * t.elementSize * 6)
      ∧ (t.type = .TEXTURE_3D → t.width * t.height * t.depth * t.elementSize < 2 ^ 64 →
          (t.size : Int) = t.width * t.height * t.depth * t.elementSize)
      ∧ (t.type = .TEXTURE_2D → t.width * t.height * t.elementSize < 2 ^ 64 →
          (t.size : Int) = t.width * t.height * t.elementSize)
      ∧ (t.type = .TEXTURE_1D ∨ t.type = .TEXTURE_BUFFER → t.width * t.elementSize < 2 ^ 64 →
          (t.size : Int) = t.width * t.elementSize) := by
  obtain ⟨hes, hc, hcb, _⟩ := setFormat_ok t0 t texel channels chan_bytes hfmt
  have he : 0 ≤ t.elementSize := by
    rw [hes]
    rcases hc with rfl | rfl | rfl <;> omega
  have hW := Int.toNat_of_nonneg hw
  have hH := Int.toNat_of_nonneg hh
  have hD := Int.toNat_of_nonneg hd
  have hE := Int.toNat_of_nonneg he
  have hsize := size_of_nonneg t _ _ _ _ hW hH hD hE
  refine ⟨hes, ?_, ?_, ?_, ?_⟩
  · intro hty hlt
    rw [hty] at hsize
    simp only at hsize
    rw [← hW, ← hH, ← hE] at hlt ⊢
    have hlt2 : t.width.toNat * t.height.toNat * t.elementSize.toNat * 6 < 2 ^ 64 := by
      exact_mod_cast hlt
    rw [hsize, Nat.mod_eq_of_lt hlt2]
    push_cast
    rfl
  · intro hty hlt
    rw [hty] at hsize
    simp only at hsize
    rw [← hW, ← hH, ← hD, ← hE] at hlt ⊢
    have hlt2 : t.width.toNat * t.height.toNat * t.depth.toNat * t.elementSize.toNat < 2 ^ 64 := by
      exact_mod_cast hlt
    rw [hsize, Nat.mod_eq_of_lt hlt2]
    push_cast
    rfl
  · intro hty hlt
    rw [hty] at hsize
    simp only at hsize
    rw [← hW, ← hH, ← hE] at hlt ⊢
    have hlt2 : t.width.toNat * t.height.toNat * t.elementSize.toNat < 2 ^ 64 := by
      exact_mod_cast hlt
    rw [hsize, Nat.mod_eq_of_lt hlt2]
    push_cast
    rfl
  · intro hty hlt
    rw [← hW, ← hE] at hlt ⊢
    have hlt2 : t.width.toNat * t.elementSize.toNat < 2 ^ 64 := by
      exact_mod_cast hlt
    rcases hty with hty | hty <;>
    · rw [hty] at hsize
      simp only at hsize
      rw [hsize, Nat.mod_eq_of_lt hlt2]
      push_cast
      rfl

/-- Witness of C8 at the 256x256 2D float texture with 4 channels of 4 bytes. -/
theorem C8_size_by_dimensionality_witness :
    Texture.setFormat (Texture.construct .TEXTURE_2D 256 256 1 1) .TEXEL_FLOAT 4 4
        = .ok formattedTexture
      ∧ (formattedTexture.size : Int) = 256 * 256 * 16 :=
  ⟨formattedTexture_eq,
    ((C8_size_by_dimensionality _ formattedTexture .TEXEL_FLOAT 4 4 formattedTexture_eq
      (by decide) (by decide) (by decide)).2.2.2.1 (by decide)
        (by norm_num [formattedTexture, Texture.construct, TextureType.toInt])).trans
      (by norm_num [formattedTexture, Texture.construct, TextureType.toInt])⟩

theorem emit_tex (w : World) (c : GlCall) : (w.emit c).tex = w.tex := rfl

theorem emit_memoryUsage (w : World) (c : GlCall) : (w.emit c).memoryUsage = w.memoryUsage := rfl

/-- Method `bindAny` changes nothing but the bound unit in any texture object. -/
theorem bindAny_tex (n : Nat) (w : World) (this t : TexId) :
    ∃ u, (Texture.bindAny n w this).tex t = (w.tex t).withBoundUnit u := by
  by_cases hb : (w.tex this).boundUnit = -1
  · rw [bindAny_unbound n w this hb]
    exact ⟨_, bind_tex w this _ t⟩
  · rw [bindAny_tex_resident n w this hb]
    exact ⟨_, (withBoundUnit_self _).symm⟩

theorem setFilter_tex (n : Nat) (w : World) (this : TexId) (clamp linear : Bool) :
    (Texture.setFilter n w this clamp linear).tex = (Texture.bindAny n w this).tex := by
  simp only [Texture.setFilter, apply_ite World.tex, emit_tex, ite_self]

theorem setFilter_memoryUsage (n : Nat) (w : World) (this : TexId) (clamp linear : Bool) :
    (Texture.setFilter n w this clamp linear).memoryUsage = w.memoryUsage := by
  simp only [Texture.setFilter, apply_ite World.memoryUsage, emit_memoryUsage, ite_self,
    bindAny_memoryUsage]

/-- Method `bindAny` as a rewriting rule on texture objects. -/
theorem bindAny_tex_eq (n : Nat) (w : World) (this t : TexId) :
    (Texture.bindAny n w this).tex t
      = (w.tex t).withBoundUnit ((Texture.bindAny n w this).tex t).boundUnit := by
  obtain ⟨u, hu⟩ := bindAny_tex n w this t
  rw [hu]
  rfl

theorem setGlName_size (w : World) (this : TexId) (name : Nat) :
    ((w.setGlName this name).tex this).size = (w.tex this).size := by
  unfold World.setGlName
  simp only [Function.update_same]
  rfl

/-- Method `init` adds `size()` of the texture to the memory counter, modulo `2^64`. -/
theorem init_memoryUsage (n : Nat) (w : World) (this : TexId) (bufferObject name : Nat) :
    (Texture.init n w this bufferObject name).memoryUsage
      = (w.memoryUsage + (w.tex this).size) % 2 ^ 64 := by
  unfold Texture.init
  simp only [setFilter_memoryUsage, emit_memoryUsage, bindAny_memoryUsage, emit_tex]
  obtain ⟨u, hu⟩ := bindAny_tex n ((w.emit (.glGenTextures 1)).setGlName this name) this this
  rw [hu, withBoundUnit_size, setGlName_size]
  rfl

/-- After `init`, the texture has the device name stored and the size it had before. -/
theorem init_tex_this (n : Nat) (w : World) (this : TexId) (bufferObject name : Nat) :
    ((Texture.init n w this bufferObject name).tex this).glName = name
      ∧ ((Texture.init n w this bufferObject name).tex this).size = (w.tex this).size := by
  unfold Texture.init
  simp only [setFilter_tex]
  rw [bindAny_tex_eq]
  simp only [emit_tex]
  rw [bindAny_tex_eq]
  constructor
  · simp [Texture.withBoundUnit, World.setGlName]
  · rw [withBoundUnit_size, withBoundUnit_size, setGlName_size]
    rfl

/-- C7: for any texture (whatever its kind, dimensions and format), `init()` increases the
global memory-usage counter by exactly `size()`, and destroying the texture afterwards
returns the counter to its value before, in arithmetic modulo 2^64 and provided the device
returned a non-zero texture name; for a 256x256 2D float texture with 4 channels of 4 bytes
`size()` is 256*256*16. -/
theorem C7_init_adds_size_and_destroy_restores (n : Nat) (w : World) (this : TexId)
    (bufferObject name : Nat) (hmem : w.memoryUsage < 2 ^ 64) (hname : name ≠ 0) :
    (Texture.init n w this bufferObject name).memoryUsage
        = (w.memoryUsage + (w.tex this).size) % 2 ^ 64
      ∧ ((Texture.init n w this bufferObject name).tex this).size = (w.tex this).size
      ∧ (Texture.destroy (Texture.init n w this bufferObject name) this).memoryUsage
        = w.memoryUsage
      ∧ (∀ depth levels : Int, ∃ t,
          Texture.setFormat (Texture.construct .TEXTURE_2D 256 256 depth levels) .TEXEL_FLOAT 4 4
            = .ok t ∧ t.size = 256 * 256 * 16) := by
  obtain ⟨hgl, hsz⟩ := init_tex_this n w this bufferObject name
  refine ⟨init_memoryUsage n w this bufferObject name, hsz, ?_, ?_⟩
  · unfold Texture.destroy
    rw [if_pos (by rw [hgl]; exact hname), emit_memoryUsage]
    simp only []
    rw [hsz, init_memoryUsage]
    have hs := size_lt (w.tex this)
    omega
  · intro depth levels
    refine ⟨_, rfl, ?_⟩
    norm_num [Texture.size, Texture.construct, TextureType.toInt, toULL]
    decide

/-- Witness of C7: from an empty counter, `init()` of the 256x256 2D float texture with 4
channels of 4 bytes brings the counter to 256*256*16 and destroying it brings it back
to 0. -/
theorem C7_init_adds_size_and_destroy_restores_witness :
    formattedWorld.memoryUsage = 0
      ∧ (Texture.init 4 formattedWorld 0 0 1).memoryUsage = 256 * 256 * 16
      ∧ (Texture.destroy (Texture.init 4 formattedWorld 0 0 1) 0).memoryUsage = 0 := by
  have h := C7_init_adds_size_and_destroy_restores 4 formattedWorld 0 0 1 (by decide)
    (by decide)
  exact ⟨rfl, h.1.trans (by decide), h.2.2.1⟩

/-! ## Shader uniform cache: repeated integer setters -/

theorem uniformIndex_found (env : UniformEnv) (s : Shader) (name : String) (i : Nat)
    (h : (List.range s.uniformCount.toNat).find?
      (fun (i : Nat) => decide (s.uniformHash (i : Int) = env.stringHash name)) = some i) :
    Shader.uniformIndex env s name = (s, (i : Int)) := by
  unfold Shader.uniformIndex
  simp only [h]

theorem uniformIndex_fresh (env : UniformEnv) (s : Shader) (name : String)
    (h : (List.range s.uniformCount.toNat).find?
      (fun (i : Nat) => decide (s.uniformHash (i : Int) = env.stringHash name)) = none) :
    Shader.uniformIndex env s name
      = ({ s with
            uniformHash := Function.update s.uniformHash s.uniformCount (env.stringHash name),
            uniformLocation := Function.update s.uniformLocation s.uniformCount
              (env.glGetUniformLocation s.program name),
            uniformCount := s.uniformCount + 1 }, s.uniformCount + 1 - 1) := by
  unfold Shader.uniformIndex
  simp only [h]

theorem uniformIndex_vals (env : UniformEnv) (s : Shader) (name : String) :
    (Shader.uniformIndex env s name).1.uniformVals = s.uniformVals := by
  cases hfind : (List.range s.uniformCount.toNat).find?
      (fun (i : Nat) => decide (s.uniformHash (i : Int) = env.stringHash name)) with
  | some i => rw [uniformIndex_found env s name i hfind]
  | none => rw [uniformIndex_fresh env s name hfind]

theorem uniformIndex_count_nonneg (env : UniformEnv) (s : Shader) (name : String)
    (h0 : 0 ≤ s.uniformCount) : 0 ≤ (Shader.uniformIndex env s name).1.uniformCount := by
  cases hfind : (List.range s.uniformCount.toNat).find?
      (fun (i : Nat) => decide (s.uniformHash (i : Int) = env.stringHash name)) with
  | some i => rw [uniformIndex_found env s name i hfind]; exact h0
  | none =>
    rw [uniformIndex_fresh env s name hfind]
    show 0 ≤ s.uniformCount + 1
    omega

/-- A lookup that follows a lookup of the same name finds the entry and changes nothing. -/
theorem uniformIndex_idem (env : UniformEnv) (s : Shader) (name : String)
    (h0 : 0 ≤ s.uniformCount) :
    Shader.uniformIndex env (Shader.uniformIndex env s name).1 name
      = Shader.uniformIndex env s name := by
  cases hfind : (List.range s.uniformCount.toNat).find?
      (fun (i : Nat) => decide (s.uniformHash (i : Int) = env.stringHash name)) with
  | some i =>
    rw [uniformIndex_found env s name i hfind]
    exact uniformIndex_found env s name i hfind
  | none =>
    rw [uniformIndex_fresh env s name hfind]
    have hcount : (s.uniformCount + 1).toNat = s.uniformCount.toNat + 1 := by omega
    have hk : ((s.uniformCount.toNat : Nat) : Int) = s.uniformCount := Int.toNat_of_nonneg h0
    have hnone : (List.range s.uniformCount.toNat).find?
        (fun (i : Nat) => decide
          (Function.update s.uniformHash s.uniformCount (env.stringHash name) (i : Int)
            = env.stringHash name)) = none := by
      rw [List.find?_eq_none] at hfind ⊢
      intro i hi
      have hlt : i < s.uniformCount.toNat := List.mem_range.mp hi
      have hne : (i : Int) ≠ s.uniformCount := by omega
      rw [Function.update_noteq hne]
      exact hfind i hi
    have hfind2 : (List.range (s.uniformCount + 1).toNat).find?
        (fun (i : Nat) => decide
          (Function.update s.uniformHash s.uniformCount (env.stringHash name) (i : Int)
            = env.stringHash name)) = some s.uniformCount.toNat := by
      rw [hcount, List.range_succ, List.find?_append, hnone]
      simp
      rw [hk]
      exact Function.update_same _ _ _
    have h2 := uniformIndex_found env
      { s with
        uniformHash := Function.update s.uniformHash s.uniformCount (env.stringHash name),
        uniformLocation := Function.update s.uniformLocation s.uniformCount
          (env.glGetUniformLocation s.program name),
        uniformCount := s.uniformCount + 1 } name s.uniformCount.toNat hfind2
    rw [h2, hk]
    have hidx : s.uniformCount = s.uniformCount + 1 - 1 := by omega
    exact congrArg _ hidx

/-- A state in which a setter issues nothing and changes nothing stays so under repetition. -/
theorem callsOfRepeated_fixed (setter : Shader → Shader × List GlCall) (s : Shader)
    (h : setter s = (s, [])) (n : Nat) :
    callsOfRepeated setter n s = List.replicate n [] := by
  induction n with
  | zero => rfl
  | succ n ih =>
    show (setter s).2 :: callsOfRepeated setter n (setter s).1 = [] :: List.replicate n []
    rw [h]
    exact congrArg _ ih

/-- When the slot that the lookup returns already holds the value, `uniformI` issues no
device call. -/
theorem uniformI_silent (env : UniformEnv) (s : Shader) (name : String) (v : Int)
    (h : ((Shader.uniformIndex env s name).1.uniformVals (Shader.uniformIndex env s name).2).w0
      = v) :
    Shader.uniformI env s name v = ((Shader.uniformIndex env s name).1, []) := by
  unfold Shader.uniformI
  simp only [h, ne_eq, not_true_eq_false, if_false]

/-- The lookup does not read the stored values. -/
theorem uniformIndex_withVals (env : UniformEnv) (s : Shader) (name : String)
    (f : Int → UniformValue) :
    Shader.uniformIndex env { s with uniformVals := f } name
      = ({ (Shader.uniformIndex env s name).1 with uniformVals := f },
          (Shader.uniformIndex env s name).2) := by
  cases hfind : (List.range s.uniformCount.toNat).find?
      (fun (i : Nat) => decide (s.uniformHash (i : Int) = env.stringHash name)) with
  | some i =>
    rw [uniformIndex_found env s name i hfind]
    exact uniformIndex_found env { s with uniformVals := f } name i hfind
  | none =>
    rw [uniformIndex_fresh env s name hfind]
    exact uniformIndex_fresh env { s with uniformVals := f } name hfind

/-- After one call of a setter, a further call with the same values issues nothing and
leaves the shader as it is. -/
theorem cachedSet_second (env : UniformEnv) (name : String) (holds : UniformValue → Bool)
    (store : UniformValue → UniformValue) (call : Int → GlCall)
    (hstore : ∀ x, holds (store x) = true) (s : Shader) (h0 : 0 ≤ s.uniformCount) :
    cachedSet env name holds store call (cachedSet env name holds store call s).1
      = ((cachedSet env name holds store call s).1, []) := by
  by_cases hh : holds ((Shader.uniformIndex env s name).1.uniformVals
      (Shader.uniformIndex env s name).2) = true
  · have h1 : cachedSet env name holds store call s = ((Shader.uniformIndex env s name).1, []) := by
      unfold cachedSet
      rw [if_pos hh]
    rw [h1]
    show cachedSet env name holds store call (Shader.uniformIndex env s name).1 = _
    unfold cachedSet
    rw [uniformIndex_idem env s name h0, if_pos hh]
  · have h1 : cachedSet env name holds store call s
        = ({ (Shader.uniformIndex env s name).1 with
              uniformVals := Function.update (Shader.uniformIndex env s name).1.uniformVals
                (Shader.uniformIndex env s name).2
                (store ((Shader.uniformIndex env s name).1.uniformVals
                  (Shader.uniformIndex env s name).2)) },
            [call ((Shader.uniformIndex env s name).1.uniformLocation
              (Shader.uniformIndex env s name).2)]) := by
      unfold cachedSet
      rw [if_neg hh]
    rw [h1]
    simp only []
    unfold cachedSet
    rw [uniformIndex_withVals, uniformIndex_idem env s name h0]
    simp only [Function.update_same, hstore, if_true]

/-- Of `n + 1` consecutive calls of a setter with the same values, only the first can issue
a device call. -/
theorem cachedSet_repeated (env : UniformEnv) (name : String) (holds : UniformValue → Bool)
    (store : UniformValue → UniformValue) (call : Int → GlCall)
    (hstore : ∀ x, holds (store x) = true) (s : Shader) (h0 : 0 ≤ s.uniformCount) (n : Nat) :
    callsOfRepeated (cachedSet env name holds store call) (n + 1) s
      = (cachedSet env name holds store call s).2 :: List.replicate n [] := by
  show (cachedSet env name holds store call s).2
      :: callsOfRepeated (cachedSet env name holds store call) n
          (cachedSet env name holds store call s).1 = _
  rw [callsOfRepeated_fixed _ _ (cachedSet_second env name holds store call hstore s h0) n]

theorem uniformI_eq_cachedSet (env : UniformEnv) (name : String) (i : Int) :
    (fun s => Shader.uniformI env s name i)
      = cachedSet env name (fun x => decide (x.w0 = i)) (fun x => { x with w0 := i })
          (fun location => .glUniform1i location i) := by
  funext s
  unfold Shader.uniformI cachedSet
  by_cases h : ((Shader.uniformIndex env s name).1.uniformVals
      (Shader.uniformIndex env s name).2).w0 = i
  · simp [h]
  · simp [h]

theorem uniformI2_eq_cachedSet (env : UniformEnv) (name : String) (i1 i2 : Int) :
    (fun s => Shader.uniformI2 env s name i1 i2)
      = cachedSet env name (fun x => decide (x.w0 = i1 ∧ x.w1 = i2))
          (fun x => { x with w0 := i1, w1 := i2 })
          (fun location => .glUniform2i location i1 i2) := by
  funext s
  unfold Shader.uniformI2 cachedSet
  by_cases h : ((Shader.uniformIndex env s name).1.uniformVals
      (Shader.uniformIndex env s name).2).w0 = i1
    ∧ ((Shader.uniformIndex env s name).1.uniformVals
      (Shader.uniformIndex env s name).2).w1 = i2
  · simp [h]
  · have h2 := not_and_or.mp h
    simp [h, h2]

theorem uniformI3_eq_cachedSet (env : UniformEnv) (name : String) (i1 i2 i3 : Int) :
    (fun s => Shader.uniformI3 env s name i1 i2 i3)
      = cachedSet env name (fun x => decide (x.w0 = i1 ∧ x.w1 = i2 ∧ x.w2 = i3))
          (fun x => { x with w0 := i1, w1 := i2, w2 := i3 })
          (fun location => .glUniform3i location i1 i2 i3) := by
  funext s
  unfold Shader.uniformI3 cachedSet
  rcases Shader.uniformIndex env s name with ⟨s1, t⟩
  by_cases h0 : (s1.uniformVals t).w0 = i1 <;> by_cases h1 : (s1.uniformVals t).w1 = i2 <;>
    by_cases h2 : (s1.uniformVals t).w2 = i3 <;> simp [h0, h1, h2]

theorem uniformI4_eq_cachedSet (env : UniformEnv) (name : String) (i1 i2 i3 i4 : Int) :
    (fun s => Shader.uniformI4 env s name i1 i2 i3 i4)
      = cachedSet env name (fun x => decide (x.w0 = i1 ∧ x.w1 = i2 ∧ x.w2 = i3 ∧ x.w3 = i4))
          (fun x => { x with w0 := i1, w1 := i2, w2 := i3, w3 := i4 })
          (fun location => .glUniform4i location i1 i2 i3 i4) := by
  funext s
  unfold Shader.uniformI4 cachedSet
  rcases Shader.uniformIndex env s name with ⟨s1, t⟩
  by_cases h0 : (s1.uniformVals t).w0 = i1 <;> by_cases h1 : (s1.uniformVals t).w1 = i2 <;>
    by_cases h2 : (s1.uniformVals t).w2 = i3 <;> by_cases h3 : (s1.uniformVals t).w3 = i4 <;>
    simp [h0, h1, h2, h3]

/-- On a shader whose value storage is zero-filled, a setter whose values the all-zero slot
already `holds` never issues a device call, however often it is called. -/
theorem cachedSet_zeroed (env : UniformEnv) (name : String) (holds : UniformValue → Bool)
    (store : UniformValue → UniformValue) (call : Int → GlCall)
    (hstore : ∀ x, holds (store x) = true)
    (hzero : holds { w0 := 0, w1 := 0, w2 := 0, w3 := 0 } = true)
    (program : Int) (hash0 location0 : Int → Int) (n : Nat) :
    callsOfRepeated (cachedSet env name holds store call) n
        (zeroedShader program hash0 location0)
      = List.replicate n [] := by
  cases n with
  | zero => rfl
  | succ n =>
    rw [cachedSet_repeated env name holds store call hstore _ (le_refl _) n]
    have hfirst : (cachedSet env name holds store call
        (zeroedShader program hash0 location0)).2 = [] := by
      unfold cachedSet
      rw [uniformIndex_vals]
      have hz : (zeroedShader program hash0 location0).uniformVals
          (Shader.uniformIndex env (zeroedShader program hash0 location0) name).2
          = { w0 := 0, w1 := 0, w2 := 0, w3 := 0 } := rfl
      rw [hz, if_pos hzero]
    rw [hfirst]
    rfl

/-- Of `n + 1` consecutive calls `uniformI(name, v)`, the calls 2 .. n+1 issue no device
call, and the first issues `glUniform1i` exactly when the value slot of the entry does not
already hold `v`. -/
theorem uniformI_repeated (env : UniformEnv) (s : Shader) (name : String) (v : Int)
    (h0 : 0 ≤ s.uniformCount) (n : Nat) :
    callsOfRepeated (fun s => Shader.uniformI env s name v) (n + 1) s
      = (if ((Shader.uniformIndex env s name).1.uniformVals
              (Shader.uniformIndex env s name).2).w0 = v then []
          else [GlCall.glUniform1i
            ((Shader.uniformIndex env s name).1.uniformLocation
              (Shader.uniformIndex env s name).2) v])
        :: List.replicate n [] := by
  rw [uniformI_eq_cachedSet, cachedSet_repeated env name _ _ _ (by intro x; simp) s h0 n]
  congr 1
  unfold cachedSet
  by_cases h : ((Shader.uniformIndex env s name).1.uniformVals
      (Shader.uniformIndex env s name).2).w0 = v
  · simp [h]
  · simp [h]

/-- C10, at the failing input: on a shader as constructed whose value storage is
zero-filled, with an empty uniform cache, `n` consecutive calls `uniformI(name, 0)` issue no
device call at all (not even at the first call), for every name and every `n`; likewise for
the 2-, 3- and 4-component setters with all components 0. -/
theorem C10_zeroed_storage_never_issues (env : UniformEnv) (program : Int)
    (hash0 location0 : Int → Int) (name : String) (n : Nat) :
    callsOfRepeated (fun s => Shader.uniformI env s name 0) n
        (zeroedShader program hash0 location0) = List.replicate n []
      ∧ callsOfRepeated (fun s => Shader.uniformI2 env s name 0 0) n
        (zeroedShader program hash0 location0) = List.replicate n []
      ∧ callsOfRepeated (fun s => Shader.uniformI3 env s name 0 0 0) n
        (zeroedShader program hash0 location0) = List.replicate n []
      ∧ callsOfRepeated (fun s => Shader.uniformI4 env s name 0 0 0 0) n
        (zeroedShader program hash0 location0) = List.replicate n [] := by
  rw [uniformI_eq_cachedSet, uniformI2_eq_cachedSet, uniformI3_eq_cachedSet,
    uniformI4_eq_cachedSet]
  exact ⟨cachedSet_zeroed env name _ _ _ (by intro x; simp) (by simp) program hash0 location0 n,
    cachedSet_zeroed env name _ _ _ (by intro x; simp) (by simp) program hash0 location0 n,
    cachedSet_zeroed env name _ _ _ (by intro x; simp) (by simp) program hash0 location0 n,
    cachedSet_zeroed env name _ _ _ (by intro x; simp) (by simp) program hash0 location0 n⟩

/-! ## Texture units: redundant binds, the slot invariant and use tickets -/

theorem selectUnit_calls (w : World) (u : Int) :
    (Texture.selectUnit w u).calls
      = if u ≠ w.selectedUnit then w.calls ++ [GlCall.glActiveTexture (GL_TEXTURE0 + u)]
        else w.calls := by
  unfold Texture.selectUnit World.emit
  split <;> rfl

theorem selectUnit_nextTicket (w : World) (u : Int) :
    (Texture.selectUnit w u).nextTicket = w.nextTicket := by
  unfold Texture.selectUnit World.emit; split <;> rfl

/-- In a reachable state, `bind(u)` on a texture that is already resident at unit `u` issues
the device texture-bind call again: the occupant it demotes is the texture itself, so the
test `_boundUnit == unit` that guards the early return is false. -/
theorem bind_resident_issues_bind (n : Nat) (hn : 0 < n) (w : World) (hw : Reachable n w)
    (t : TexId) (u : Int) (h0 : 0 ≤ u) (hres : (w.tex t).boundUnit = u) :
    (Texture.bind w t u).calls
      = (if u ≠ w.selectedUnit then w.calls ++ [GlCall.glActiveTexture (GL_TEXTURE0 + u)]
          else w.calls)
        ++ [GlCall.glBindTexture (w.tex t).glType (w.tex t).glName] := by
  obtain ⟨_, hf⟩ := reachable_unitInv n hn w hw
  have hne : (w.tex t).boundUnit ≠ -1 := by omega
  have hslot : w.units u = some t := by
    have hs := hf t hne
    rw [hres] at hs
    exact hs
  unfold Texture.bind
  simp only [hslot, selectUnit_tex]
  have htest : ¬ ((Texture.markAsUsed (w.setBoundUnit t (-1)) u).tex t).boundUnit = u := by
    show ¬ ((w.setBoundUnit t (-1)).tex t).boundUnit = u
    unfold World.setBoundUnit
    simp only [Function.update_same, withBoundUnit_boundUnit]
    omega
  rw [if_neg htest]
  show (Texture.selectUnit (Texture.markAsUsed (w.setBoundUnit t (-1)) u) u).calls
      ++ [GlCall.glBindTexture ((w.setBoundUnit t (-1)).tex t).glType
            ((w.setBoundUnit t (-1)).tex t).glName] = _
  rw [selectUnit_calls]
  have htex : (w.setBoundUnit t (-1)).tex t = (w.tex t).withBoundUnit (-1) := by
    unfold World.setBoundUnit
    simp only [Function.update_same]
  rw [htex]
  rfl

/-- C11, at the failing input: texture 0 is resident at unit 0, the selected unit, in a
reachable state whose only device call so far is the texture bind that made it resident;
`bind(0)` on texture 0 then issues a second device texture-bind call, where the claim says
it issues none. -/
theorem C11_bind_on_resident_texture_binds_again :
    Reachable 4 residentWorld
      ∧ (residentWorld.tex 0).boundUnit = 0 ∧ residentWorld.units 0 = some 0
      ∧ residentWorld.selectedUnit = 0
      ∧ residentWorld.calls = [GlCall.glBindTexture GL_TEXTURE_2D 0]
      ∧ (Texture.bind residentWorld 0 0).calls
          = [GlCall.glBindTexture GL_TEXTURE_2D 0, GlCall.glBindTexture GL_TEXTURE_2D 0] :=
  ⟨Reachable.bind 0 0 (Reachable.initial _ exampleTextures_unbound) (by decide) (by decide),
    by decide, by decide, by decide, by decide, by decide⟩

/-- C12: in every state reachable from the initial state by `bind(unit)` with valid unit
indices and `bindAny()`, if a texture t records a bound unit U other than -1 then slot U of
the unit table holds t; consequently two textures that record the same bound unit (other
than -1) are the same texture. -/
theorem C12_recorded_unit_slot_holds_and_unique (n : Nat) (hn : 0 < n) (w : World)
    (hw : Reachable n w) :
    (∀ (t : TexId) (U : Int), (w.tex t).boundUnit = U → U ≠ -1 → w.units U = some t)
      ∧ (∀ t1 t2 : TexId, (w.tex t1).boundUnit ≠ -1 →
          (w.tex t1).boundUnit = (w.tex t2).boundUnit → t1 = t2) := by
  obtain ⟨_, hf⟩ := reachable_unitInv n hn w hw
  constructor
  · intro t U hb hU
    have hs := hf t (by rw [hb]; exact hU)
    rw [hb] at hs
    exact hs
  · intro t1 t2 h1 heq
    have hs1 := hf t1 h1
    have hs2 := hf t2 (by rw [← heq]; exact h1)
    rw [heq, hs2] at hs1
    exact (Option.some.inj hs1).symm

/-- Witness of C12 with two units, texture 0 bound to unit 0 and texture 1 to unit 1: slot 1
holds texture 1, and a texture recording the bound unit of texture 1 is texture 1. -/
theorem C12_recorded_unit_slot_holds_and_unique_witness :
    (0 < 2) ∧ Reachable 2 twoBoundWorld ∧ twoBoundWorld.units 1 = some 1
      ∧ (∀ t2 : TexId, (twoBoundWorld.tex 1).boundUnit = (twoBoundWorld.tex t2).boundUnit →
          1 = t2) :=
  ⟨by decide, twoBoundWorld_reachable,
    (C12_recorded_unit_slot_holds_and_unique 2 (by decide) twoBoundWorld
      twoBoundWorld_reachable).1 1 1 (by decide) (by decide),
    fun t2 => (C12_recorded_unit_slot_holds_and_unique 2 (by decide) twoBoundWorld
      twoBoundWorld_reachable).2 1 t2 (by decide)⟩

theorem reachableIn_reachable (n k : Nat) (w : World) (hw : ReachableIn n k w) :
    Reachable n w := by
  induction hw with
  | initial tex h => exact Reachable.initial tex h
  | bind this unit _ h0 hN ih => exact Reachable.bind this unit ih h0 hN
  | bindAny this _ ih => exact Reachable.bindAny this ih

theorem wrapInt32_of_range (x : Int) (h0 : -2 ^ 31 ≤ x) (h1 : x < 2 ^ 31) : wrapInt32 x = x := by
  unfold wrapInt32
  omega

theorem bind_unitTicket (w : World) (this : TexId) (unit : Int) :
    (Texture.bind w this unit).unitTicket = Function.update w.unitTicket unit w.nextTicket := by
  unfold Texture.bind
  cases hocc : w.units unit <;>
    simp only [Texture.markAsUsed, World.setBoundUnit, World.emit] <;>
    split <;> simp [selectUnit_unitTicket]

theorem bind_nextTicket (w : World) (this : TexId) (unit : Int) :
    (Texture.bind w this unit).nextTicket = wrapInt32 (w.nextTicket + 1) := by
  unfold Texture.bind
  cases hocc : w.units unit <;>
    simp only [Texture.markAsUsed, World.setBoundUnit, World.emit] <;>
    split <;> simp [selectUnit_nextTicket]

theorem bindAny_unitTicket (n : Nat) (w : World) (this : TexId) :
    (Texture.bindAny n w this).unitTicket
      = Function.update w.unitTicket (stampedUnit n w this) w.nextTicket := by
  unfold Texture.bindAny stampedUnit
  split
  · rw [selectUnit_unitTicket]; rfl
  · exact bind_unitTicket _ _ _

theorem bindAny_nextTicket (n : Nat) (w : World) (this : TexId) :
    (Texture.bindAny n w this).nextTicket = wrapInt32 (w.nextTicket + 1) := by
  unfold Texture.bindAny
  split
  · rw [selectUnit_nextTicket]; rfl
  · exact bind_nextTicket _ _ _

/-- After `bindAny()`, the texture's bound unit is the unit that was stamped. -/
theorem bindAny_boundUnit (n : Nat) (w : World) (this : TexId) :
    ((Texture.bindAny n w this).tex this).boundUnit = stampedUnit n w this := by
  unfold stampedUnit
  by_cases hb : (w.tex this).boundUnit = -1
  · rw [if_neg (by simpa using hb), bindAny_unbound n w this hb, bind_boundUnit]
    unfold boundAfterBind
    rw [if_pos rfl]
  · rw [if_pos hb, bindAny_tex_resident n w this hb]

/-- While fewer than `2^31 - 1` tickets have been issued, the counter holds the number of
tickets issued plus one, and no ticket in the table exceeds the number issued. -/
theorem reachableIn_tickets (n k : Nat) (w : World) (hw : ReachableIn n k w)
    (hk : (k : Int) < 2 ^ 31 - 1) :
    w.nextTicket = k + 1 ∧ ∀ i : Int, w.unitTicket i ≤ k := by
  induction hw with
  | initial tex h =>
    refine ⟨rfl, fun i => ?_⟩
    show (0 : Int) ≤ ((0 : Nat) : Int)
    exact le_refl _
  | bind this unit hw0 h0 hN ih =>
    rename_i k0 w0
    obtain ⟨hnext, htk⟩ := ih (by push_cast at hk; omega)
    rw [bind_unitTicket, bind_nextTicket, hnext]
    push_cast at hk ⊢
    refine ⟨wrapInt32_of_range _ (by omega) (by omega), fun i => ?_⟩
    by_cases hi : i = unit
    · rw [hi, Function.update_same]
    · rw [Function.update_noteq hi]
      have := htk i
      omega
  | bindAny this hw0 ih =>
    rename_i k0 w0
    obtain ⟨hnext, htk⟩ := ih (by push_cast at hk; omega)
    rw [bindAny_unitTicket, bindAny_nextTicket, hnext]
    push_cast at hk ⊢
    refine ⟨wrapInt32_of_range _ (by omega) (by omega), fun i => ?_⟩
    by_cases hi : i = stampedUnit n w0 this
    · rw [hi, Function.update_same]
    · rw [Function.update_noteq hi]
      have := htk i
      omega

/-- Stamping unit `u` with a ticket above every ticket of the table makes `u` the strictly
newest unit. -/
theorem stamped_is_newest (tk : Int → Int) (next u : Int)
    (h : ∀ i : Int, tk i < next) (i : Int) (hi : i ≠ u) :
    Function.update tk u next i < Function.update tk u next u := by
  rw [Function.update_same, Function.update_noteq hi]
  exact h i

/-- With at least two units, a unit whose ticket is strictly greater than every other unit's
is not the victim, so the next `bindAny()` on a non-resident texture binds it elsewhere. -/
theorem newest_not_victim (n : Nat) (hn : 2 ≤ n) (w : World) (u : Int)
    (hnew : ∀ i : Int, 0 ≤ i → i < n → i ≠ u → w.unitTicket i < w.unitTicket u)
    (s : TexId) (hs : (w.tex s).boundUnit = -1) :
    Texture.selectVictimUnit n w ≠ u
      ∧ ((Texture.bindAny n w s).tex s).boundUnit = Texture.selectVictimUnit n w := by
  obtain ⟨_, _, hmin, _⟩ := selectVictimUnit_spec n (by omega) w
  constructor
  · intro hv
    by_cases hu : u = 0
    · have hlt := hnew 1 (by omega) (by omega) (by omega)
      have hle := hmin 1 (by omega) (by omega)
      rw [hv] at hle
      omega
    · have hlt := hnew 0 (le_refl _) (by omega) (fun h => hu h.symm)
      have hle := hmin 0 (le_refl _) (by omega)
      rw [hv] at hle
      omega
  · rw [bindAny_boundUnit]
    unfold stampedUnit
    rw [if_neg (by simpa using hs)]

theorem stampedUnit_valid (n : Nat) (hn : 0 < n) (w : World) (hw : Reachable n w)
    (this : TexId) : 0 ≤ stampedUnit n w this ∧ stampedUnit n w this < n := by
  unfold stampedUnit
  by_cases hb : (w.tex this).boundUnit = -1
  · rw [if_neg (by simpa using hb)]
    obtain ⟨h0, h1, _⟩ := selectVictimUnit_spec n hn w
    exact ⟨h0, h1⟩
  · rw [if_pos hb]
    obtain ⟨hr, _⟩ := reachable_unitInv n hn w hw
    exact (hr this).resolve_left hb

/-- C13: in every state reached while fewer than 2^31 - 1 tickets have been issued (no
overflow of the ticket counter), every unit's ticket is strictly less than the next ticket
to be issued; hence after `t.bind(u)` (valid u) or `t.bindAny()` the unit t is bound to has
a ticket strictly greater than every other unit's, and with at least two units the next
`bindAny()` on a non-resident texture s takes a victim unit other than t's unit and binds s
there. -/
theorem C13_stamped_unit_is_newest_and_not_next_victim (n k : Nat) (hn : 0 < n) (w : World)
    (hw : ReachableIn n k w) (hk : (k : Int) < 2 ^ 31 - 1) :
    (∀ i : Int, 0 ≤ i → i < n → w.unitTicket i < w.nextTicket)
      ∧ (∀ (t : TexId) (u : Int), 0 ≤ u → u < n →
          ((Texture.bind w t u).tex t).boundUnit = u
          ∧ (∀ i : Int, 0 ≤ i → i < n → i ≠ u →
              (Texture.bind w t u).unitTicket i < (Texture.bind w t u).unitTicket u)
          ∧ (2 ≤ n → ∀ s : TexId, ((Texture.bind w t u).tex s).boundUnit = -1 →
              Texture.selectVictimUnit n (Texture.bind w t u) ≠ u
              ∧ ((Texture.bindAny n (Texture.bind w t u) s).tex s).boundUnit
                  = Texture.selectVictimUnit n (Texture.bind w t u)))
      ∧ (∀ t : TexId,
          0 ≤ ((Texture.bindAny n w t).tex t).boundUnit
          ∧ ((Texture.bindAny n w t).tex t).boundUnit < n
          ∧ (∀ i : Int, 0 ≤ i → i < n → i ≠ ((Texture.bindAny n w t).tex t).boundUnit →
              (Texture.bindAny n w t).unitTicket i
                < (Texture.bindAny n w t).unitTicket ((Texture.bindAny n w t).tex t).boundUnit)
          ∧ (2 ≤ n → ∀ s : TexId, ((Texture.bindAny n w t).tex s).boundUnit = -1 →
              Texture.selectVictimUnit n (Texture.bindAny n w t)
                  ≠ ((Texture.bindAny n w t).tex t).boundUnit
              ∧ ((Texture.bindAny n (Texture.bindAny n w t) s).tex s).boundUnit
                  = Texture.selectVictimUnit n (Texture.bindAny n w t))) := by
  obtain ⟨hnext, htk⟩ := reachableIn_tickets n k w hw hk
  have hlt : ∀ i : Int, w.unitTicket i < w.nextTicket := by
    intro i
    have := htk i
    omega
  have hreach := reachableIn_reachable n k w hw
  refine ⟨fun i _ _ => hlt i, ?_, ?_⟩
  · intro t u h0 h1
    have hb : ((Texture.bind w t u).tex t).boundUnit = u := by
      rw [bind_boundUnit]; unfold boundAfterBind; rw [if_pos rfl]
    have hnew : ∀ i : Int, 0 ≤ i → i < n → i ≠ u →
        (Texture.bind w t u).unitTicket i < (Texture.bind w t u).unitTicket u := by
      intro i _ _ hi
      rw [bind_unitTicket]
      exact stamped_is_newest _ _ _ hlt i hi
    exact ⟨hb, hnew, fun h2 s hs => newest_not_victim n h2 _ u hnew s hs⟩
  · intro t
    obtain ⟨h0, h1⟩ := stampedUnit_valid n hn w hreach t
    rw [bindAny_boundUnit]
    have hnew : ∀ i : Int, 0 ≤ i → i < n → i ≠ stampedUnit n w t →
        (Texture.bindAny n w t).unitTicket i
          < (Texture.bindAny n w t).unitTicket (stampedUnit n w t) := by
      intro i _ _ hi
      rw [bindAny_unitTicket]
      exact stamped_is_newest _ _ _ hlt i hi
    exact ⟨h0, h1, hnew, fun h2 s hs => newest_not_victim n h2 _ _ hnew s hs⟩

theorem twoBoundWorld_reachableIn : ReachableIn 2 2 twoBoundWorld :=
  ReachableIn.bind 1 1
    (ReachableIn.bind 0 0 (ReachableIn.initial _ exampleTextures_unbound) (by decide)
      (by decide))
    (by decide) (by decide)

/-- Witness of C13 with two units after two binds (texture 0 at unit 0 with ticket 1,
texture 1 at unit 1 with ticket 2, next ticket 3): after texture 2 is bound to unit 0, unit 1
has a smaller ticket than unit 0, the victim is unit 1, and `bindAny()` on the now unbound
texture 0 binds it to unit 1. -/
theorem C13_stamped_unit_is_newest_and_not_next_victim_witness :
    (0 < 2) ∧ ReachableIn 2 2 twoBoundWorld ∧ ((2 : Nat) : Int) < 2 ^ 31 - 1
      ∧ twoBoundWorld.unitTicket 1 < twoBoundWorld.nextTicket
      ∧ threeBindsWorld.unitTicket 1 < threeBindsWorld.unitTicket 0
      ∧ Texture.selectVictimUnit 2 threeBindsWorld ≠ 0
      ∧ ((Texture.bindAny 2 threeBindsWorld 0).tex 0).boundUnit
          = Texture.selectVictimUnit 2 threeBindsWorld := by
  have h := C13_stamped_unit_is_newest_and_not_next_victim 2 2 (by decide) twoBoundWorld
    twoBoundWorld_reachableIn (by norm_num)
  obtain ⟨_, hnew, hvict⟩ := h.2.1 2 0 (by decide) (by decide)
  obtain ⟨hv1, hv2⟩ := hvict (by decide) 0 (by decide)
  exact ⟨by decide, twoBoundWorld_reachableIn, by norm_num,
    h.1 1 (by decide) (by decide), hnew 1 (by decide) (by decide) (by decide), hv1, hv2⟩

end GPUFluid
